import Mathlib

/-!
Verification development for the evo_blog iterative blog-improvement pipeline.

The Python sources embedded here (shallowly, over `List Char` / `String` and `ℚ`):
  scripts/comparative_evaluator.py  (ComparativeEvaluator)
  scripts/post_analyzer.py          (PostAnalyzer.extract_style_patterns)
  scripts/feedback_manager.py       (FeedbackManager._calculate_confidence_score)
  scripts/generate_blog_post.py     (BlogGenerator.generate_variations)
  scripts/iterative_improver.py     (IterativeImprover)

External collaborators (the Gemini judge API, the autoevals Battle evaluator,
Python's `statistics.stdev`, and `difflib.SequenceMatcher`) are not repository
code; they are modelled as explicit parameters or, where the spec documents
their algorithm, as executable definitions following that description.

Python floats are modelled as exact rationals (`ℚ`); the numeric claims are
about the algebraic form of the computations, which float rounding only
perturbs, never restructures.
-/

namespace EvoBlog

/-! ## Python string primitives

These mirror the CPython `str` methods used by the scripts, on ASCII text
(the corpus and all generated posts are ASCII): `str.isspace` characters,
`str.split()` (runs of whitespace), `str.split(sep)`, `str.strip()`,
`str.lower()`, `str.count(sub)`, and the `\w` word-character class of `re`.
-/

/-- Whitespace characters recognised by Python's `str.split()` / `\s` on ASCII. -/
def pyIsSpace (c : Char) : Bool :=
  c = ' ' || c = '\t' || c = '\n' || c = Char.ofNat 13 || c = Char.ofNat 11 || c = Char.ofNat 12

/-- Word characters of `re`'s `\w` / `\b` on ASCII: letters, digits, underscore. -/
def isWordChar (c : Char) : Bool :=
  (('a' ≤ c && c ≤ 'z') || ('A' ≤ c && c ≤ 'Z') || ('0' ≤ c && c ≤ '9') || c = '_')

/-- Python `str.strip()` on a char list (drop leading and trailing whitespace). -/
def pyStripL (l : List Char) : List Char :=
  ((l.dropWhile pyIsSpace).reverse.dropWhile pyIsSpace).reverse

/-- Does `pre` occur at the head of `l`? (`str.startswith`). -/
def startsWithL : List Char → List Char → Bool
  | [], _ => true
  | _ :: _, [] => false
  | p :: ps, c :: cs => p = c && startsWithL ps cs

/-- Python `str.split(sep)` for a non-empty separator, fuelled structural
recursion (fuel ≥ length of the input suffices). -/
def pySplitOnAux (sep : List Char) : ℕ → List Char → List Char → List (List Char)
  | 0, acc, l => [acc.reverse ++ l]
  | _ + 1, acc, [] => [acc.reverse]
  | n + 1, acc, l@(c :: rest) =>
    if startsWithL sep l then
      acc.reverse :: pySplitOnAux sep n [] (l.drop sep.length)
    else
      pySplitOnAux sep n (c :: acc) rest

/-- Python `content.split(sep)` (`sep` non-empty, as in the scripts). -/
def pySplitOn (sep : List Char) (l : List Char) : List (List Char) :=
  pySplitOnAux sep (l.length + 1) [] l

/-- Python `str.split()` with no argument: split on runs of whitespace,
discarding empty pieces. -/
def pyWordsAux : ℕ → List Char → List Char → List (List Char)
  | 0, acc, l => if (acc.reverse ++ l) = [] then [] else [acc.reverse ++ l]
  | _ + 1, acc, [] => if acc = [] then [] else [acc.reverse]
  | n + 1, acc, c :: rest =>
    if pyIsSpace c then
      (if acc = [] then id else (acc.reverse :: ·)) (pyWordsAux n [] rest)
    else
      pyWordsAux n (c :: acc) rest

/-- Python `content.split()`: the list of whitespace-delimited words. -/
def pyWords (l : List Char) : List (List Char) := pyWordsAux (l.length + 1) [] l

/-- Python `str.lower()` on ASCII. -/
def pyLower (l : List Char) : List Char := l.map Char.toLower

/-- Python `str.count(sub)`: non-overlapping occurrences of a non-empty
substring, scanning left to right. -/
def countSubstrAux (sub : List Char) : ℕ → List Char → ℕ
  | 0, _ => 0
  | _ + 1, [] => 0
  | n + 1, l@(_ :: rest) =>
    if startsWithL sub l then 1 + countSubstrAux sub n (l.drop sub.length)
    else countSubstrAux sub n rest

/-- Python `haystack.count(needle)` for non-empty `needle`. -/
def countSubstr (haystack sub : List Char) : ℕ :=
  countSubstrAux sub (haystack.length + 1) haystack

/-- `re.split(r'[.!?]+', content)`: split on maximal runs of sentence
punctuation.  A run of `.`/`!`/`?` is a single separator. -/
def splitSentencesAux : ℕ → List Char → List Char → List (List Char)
  | 0, acc, l => [acc.reverse ++ l]
  | _ + 1, acc, [] => [acc.reverse]
  | n + 1, acc, c :: rest =>
    if c = '.' || c = '!' || c = '?' then
      acc.reverse :: splitSentencesAux n [] (rest.dropWhile (fun d => d = '.' || d = '!' || d = '?'))
    else
      splitSentencesAux n (c :: acc) rest

/-- Split a text at runs of `[.!?]+`, as `re.split` does. -/
def splitSentenceRuns (l : List Char) : List (List Char) :=
  splitSentencesAux (l.length + 1) [] l

/-! ## A small backtracking regex engine

The scripts use `re.findall` with a handful of fixed patterns.  The engine
below reproduces CPython's leftmost / greedy / first-alternative matching
discipline for exactly the constructs those patterns use: character classes,
concatenation, prioritised alternation, greedy `*` / `+` / `?`, the
word-boundary assertion `\b`, and the end anchor `$`.  Matching is performed
structurally on an explicit fuel (any fuel at least
`(size + 2)·(length + 2)²` is sufficient because every starred subpattern in
the scripts consumes at least one character per repetition). -/

/-- Regular-expression syntax used by the scripts' patterns. -/
inductive RE where
  | eps
  | cls (p : Char → Bool)
  | seq (r1 r2 : RE)
  | alt (r1 r2 : RE)
  | star (r : RE)
  | opt (r : RE)
  | bnd
  | eol

/-- Structural size of a pattern, used to compute a sufficient fuel. -/
def RE.size : RE → ℕ
  | .eps => 1
  | .cls _ => 1
  | .seq r1 r2 => r1.size + r2.size + 1
  | .alt r1 r2 => r1.size + r2.size + 1
  | .star r => r.size + 1
  | .opt r => r.size + 1
  | .bnd => 1
  | .eol => 1

/-- `\b`: true iff exactly one of (previous char, next char) is a word char. -/
def wordBoundary (prev : Option Char) (s : List Char) : Bool :=
  let pw := match prev with | none => false | some c => isWordChar c
  let nw := match s with | [] => false | c :: _ => isWordChar c
  pw != nw

/-- All ways a pattern can match a prefix of `s`, in CPython backtracking
priority order (head = the match `re.match` would pick).  Each result is the
remaining input together with the character preceding it (for `\b`). -/
def mmatch : ℕ → RE → Option Char → List Char → List (List Char × Option Char)
  | 0, _, _, _ => []
  | _ + 1, .eps, prev, s => [(s, prev)]
  | _ + 1, .cls _, _, [] => []
  | _ + 1, .cls p, _, c :: rest => if p c then [(rest, some c)] else []
  | n + 1, .seq r1 r2, prev, s =>
    (mmatch n r1 prev s).flatMap (fun pr => mmatch n r2 pr.2 pr.1)
  | n + 1, .alt r1 r2, prev, s => mmatch n r1 prev s ++ mmatch n r2 prev s
  | n + 1, .star r, prev, s =>
    ((mmatch n r prev s).filter (fun pr => pr.1.length < s.length)).flatMap
      (fun pr => mmatch n (.star r) pr.2 pr.1) ++ [(s, prev)]
  | n + 1, .opt r, prev, s => mmatch n r prev s ++ [(s, prev)]
  | _ + 1, .bnd, prev, s => if wordBoundary prev s then [(s, prev)] else []
  | _ + 1, .eol, prev, s => if s = [] || s = ['\n'] then [(s, prev)] else []

/-- A sufficient fuel for matching `re` against (a suffix of) `s`. -/
def matchFuel (re : RE) (s : List Char) : ℕ :=
  (re.size + 2) * (s.length + 2) * (s.length + 2)

/-- Length of the leftmost-greedy match of `re` at the head of `s`, if any. -/
def firstMatchLen (re : RE) (prev : Option Char) (s : List Char) : Option ℕ :=
  match mmatch (matchFuel re s) re prev s with
  | [] => none
  | (rest, _) :: _ => some (s.length - rest.length)

/-- `re.findall` scan: at each position try the pattern; on success emit the
matched text and resume after it (an empty match advances one character, as
CPython does). -/
def findAllAux (re : RE) : ℕ → Option Char → List Char → List (List Char)
  | 0, _, _ => []
  | n + 1, prev, s =>
    match firstMatchLen re prev s with
    | some k =>
      if k = 0 then
        [] :: (match s with | [] => [] | c :: t => findAllAux re n (some c) t)
      else
        (s.take k) :: findAllAux re n (some ((s.take k).getLastD ' ')) (s.drop k)
    | none => match s with | [] => [] | c :: t => findAllAux re n (some c) t

/-- All non-overlapping matches of `re` in `s` (`re.findall`). -/
def findAll (re : RE) (s : List Char) : List (List Char) :=
  findAllAux re (s.length + 1) none s

/-- `len(re.findall(pattern, s))`. -/
def countRE (re : RE) (s : List Char) : ℕ := (findAll re s).length

/-- Case-sensitive single character. -/
def RE.chr (c : Char) : RE := .cls (fun d => d = c)

/-- Case-insensitive single character (`re.IGNORECASE`). -/
def RE.chrCI (c : Char) : RE := .cls (fun d => d.toLower = c.toLower)

/-- Case-insensitive literal word. -/
def RE.litCI (w : List Char) : RE := w.foldr (fun c r => .seq (.chrCI c) r) .eps

/-- Prioritised alternation over a list (first alternative wins). -/
def RE.oneOf (rs : List RE) : RE := rs.foldr .alt (.cls fun _ => false)

/-- `r+` (greedy). -/
def RE.rep1 (r : RE) : RE := .seq r (.star r)

/-- `\d`. -/
def reDigit : RE := .cls Char.isDigit

/-- `\s`. -/
def reSpace : RE := .cls pyIsSpace

/-! ## The concrete patterns of `comparative_evaluator.py` -/

/-- `\b(?:However|More importantly|The transformation|This approach|Consider how)\b`,
compiled with `re.IGNORECASE`. -/
def voiceRE1 : RE :=
  .seq .bnd (.seq (.oneOf [
    RE.litCI "However".data, RE.litCI "More importantly".data,
    RE.litCI "The transformation".data, RE.litCI "This approach".data,
    RE.litCI "Consider how".data]) .bnd)

/-- `\?\s*$` (trailing question). -/
def voiceRE2 : RE := .seq (.chr '?') (.seq (.star reSpace) .eol)

/-- `\b\d+%\b` (percentages; note the trailing `\b` after `%` as written). -/
def voiceRE3 : RE := .seq .bnd (.seq (RE.rep1 reDigit) (.seq (.chr '%') .bnd))

/-- `\$[\d,]+\b` (dollar amounts). -/
def voiceRE4 : RE :=
  .seq (.chr '$') (.seq (RE.rep1 (.cls fun c => c.isDigit || c = ',')) .bnd)

/-- `\b(?:will|future|next|coming)\b` with `re.IGNORECASE`. -/
def voiceRE5 : RE :=
  .seq .bnd (.seq (.oneOf [RE.litCI "will".data, RE.litCI "future".data,
    RE.litCI "next".data, RE.litCI "coming".data]) .bnd)

/-- Total voice-pattern hits:
`sum(len(re.findall(p, content, re.IGNORECASE)) for p in voice_patterns)`. -/
def countVoicePatterns (l : List Char) : ℕ :=
  countRE voiceRE1 l + countRE voiceRE2 l + countRE voiceRE3 l +
    countRE voiceRE4 l + countRE voiceRE5 l

/-- The `analytical_words` keyword bucket. -/
def analyticalWords : List String :=
  ["data", "analysis", "evidence", "research", "study", "results"]

/-- The `confident_words` keyword bucket. -/
def confidentWords : List String :=
  ["will", "must", "clearly", "obviously", "demonstrates"]

/-- The `practical_words` keyword bucket. -/
def practicalWords : List String :=
  ["implement", "apply", "use", "adopt", "strategy"]

/-- `sum(content.lower().count(word) for word in bucket)`. -/
def countBucket (bucket : List String) (l : List Char) : ℕ :=
  (bucket.map (fun w => countSubstr (pyLower l) w.data)).sum

/-- The `insight_keywords` list of `content_depth_analysis`. -/
def insightKeywords : List String :=
  ["trend", "shift", "transformation", "disruption", "opportunity",
   "challenge", "advantage", "strategy", "approach", "solution",
   "implication", "result", "consequence", "outcome", "impact"]

/-- `\b[A-Z][a-z]+\b|\b\d+(?:,\d+)*(?:\.\d+)?\b` (case-sensitive), the
"specificity" token pattern of `content_depth_analysis`. -/
def specificityRE : RE :=
  .alt
    (.seq .bnd (.seq (.cls fun c => 'A' ≤ c && c ≤ 'Z')
      (.seq (RE.rep1 (.cls fun c => 'a' ≤ c && c ≤ 'z')) .bnd)))
    (.seq .bnd (.seq (RE.rep1 reDigit)
      (.seq (.star (.seq (.chr ',') (RE.rep1 reDigit)))
        (.seq (.opt (.seq (.chr '.') (RE.rep1 reDigit))) .bnd))))

/-- `\d+%` — percentages, in `_extract_data_points`. -/
def dataRE1 : RE := .seq (RE.rep1 reDigit) (.chr '%')

/-- `\$[\d,]+(?:\.\d+)?(?:\s*(?:million|billion|thousand))?` with
`re.IGNORECASE` — dollar amounts. -/
def dataRE2 : RE :=
  .seq (.chr '$') (.seq (RE.rep1 (.cls fun c => c.isDigit || c = ','))
    (.seq (.opt (.seq (.chr '.') (RE.rep1 reDigit)))
      (.opt (.seq (.star reSpace) (.oneOf [RE.litCI "million".data,
        RE.litCI "billion".data, RE.litCI "thousand".data])))))

/-- `\b\d+(?:,\d+)*(?:\.\d+)?\s*(?:million|billion|thousand|times|x|percent|users|customers|companies)\b`
with `re.IGNORECASE` — numbers with units. -/
def dataRE3 : RE :=
  .seq .bnd (.seq (RE.rep1 reDigit)
    (.seq (.star (.seq (.chr ',') (RE.rep1 reDigit)))
      (.seq (.opt (.seq (.chr '.') (RE.rep1 reDigit)))
        (.seq (.star reSpace)
          (.seq (.oneOf [RE.litCI "million".data, RE.litCI "billion".data,
            RE.litCI "thousand".data, RE.litCI "times".data, RE.litCI "x".data,
            RE.litCI "percent".data, RE.litCI "users".data,
            RE.litCI "customers".data, RE.litCI "companies".data]) .bnd)))))

/-- `\b\d+x\b|\bgrew\s+\d+%|\bincreased\s+\d+%|\bimproved\s+\d+%` with
`re.IGNORECASE` — growth rates and multiples. -/
def dataRE4 : RE :=
  .oneOf [
    .seq .bnd (.seq (RE.rep1 reDigit) (.seq (RE.chrCI 'x') .bnd)),
    .seq .bnd (.seq (RE.litCI "grew".data)
      (.seq (RE.rep1 reSpace) (.seq (RE.rep1 reDigit) (.chr '%')))),
    .seq .bnd (.seq (RE.litCI "increased".data)
      (.seq (RE.rep1 reSpace) (.seq (RE.rep1 reDigit) (.chr '%')))),
    .seq .bnd (.seq (RE.litCI "improved".data)
      (.seq (RE.rep1 reSpace) (.seq (RE.rep1 reDigit) (.chr '%'))))]

/-! ## Text similarity (`difflib.SequenceMatcher.ratio`)

Modelled from the spec: `_calculate_text_similarity` delegates to
`difflib.SequenceMatcher(None, a, b).ratio()`, an external standard-library
function which the spec describes as the "longest-matching-subsequence
ratio".  The definitions below implement that documented algorithm — total
size of the recursively-chosen leftmost longest matching blocks, scaled by
`2/(len(a)+len(b))` — without difflib's internal `autojunk` heuristic (which
does not change the ratio on the cases the claims exercise: identical
sequences still match fully, and the ratio stays within `[0,1]`). -/

/-- Length of the longest common prefix of two sequences. -/
def commonPrefixLen : List Char → List Char → ℕ
  | [], _ => 0
  | _, [] => 0
  | a :: as', b :: bs' => if a = b then commonPrefixLen as' bs' + 1 else 0

/-- Length of the matching run of `a` at offset `i` against `b` at offset `j`. -/
def matchLenAt (a b : List Char) (i j : ℕ) : ℕ :=
  commonPrefixLen (a.drop i) (b.drop j)

/-- Keep the first strictly-longest candidate block, scanning `(i, j)` pairs
in lexicographic order — difflib's tie-breaking rule (earliest in `a`, then
earliest in `b`). -/
def bestMatchAux (a b : List Char) : List (ℕ × ℕ) → ℕ × ℕ × ℕ → ℕ × ℕ × ℕ
  | [], best => best
  | (i, j) :: rest, best =>
    let k := matchLenAt a b i j
    if best.2.2 < k then bestMatchAux a b rest (i, j, k)
    else bestMatchAux a b rest best

/-- All start-offset pairs, in lexicographic order. -/
def allPairs (la lb : ℕ) : List (ℕ × ℕ) :=
  (List.range la).flatMap (fun i => (List.range lb).map (fun j => (i, j)))

/-- The leftmost longest matching block `(i, j, size)` of two sequences. -/
def bestMatch (a b : List Char) : ℕ × ℕ × ℕ :=
  bestMatchAux a b (allPairs a.length b.length) (0, 0, 0)

/-- Total size of all matching blocks: recursively take the longest matching
block and recurse on the pieces to its left and right (fuelled; any fuel
at least `a.length` suffices). -/
def matchTotal : ℕ → List Char → List Char → ℕ
  | 0, _, _ => 0
  | n + 1, a, b =>
    let m := bestMatch a b
    if m.2.2 = 0 then 0
    else
      m.2.2 + matchTotal n (a.take m.1) (b.take m.2.1) +
        matchTotal n (a.drop (m.1 + m.2.2)) (b.drop (m.2.1 + m.2.2))

/-- `SequenceMatcher(None, a, b).ratio()`: `2·M / (len(a)+len(b))`, and `1.0`
when both sequences are empty. -/
def sequenceRatio (a b : List Char) : ℚ :=
  if a.length + b.length = 0 then 1
  else 2 * (matchTotal (a.length + b.length) a b : ℚ) / (a.length + b.length)

/-- `_calculate_text_similarity`: `0.0` if either text is empty, else the
difflib ratio of the lowercased texts. -/
def calculateTextSimilarity (t1 t2 : List Char) : ℚ :=
  if t1 = [] || t2 = [] then 0
  else sequenceRatio (pyLower t1) (pyLower t2)

/-! ## `comparative_evaluator.py` — the Comparative Scorer -/

/-- `[p.strip() for p in content.split('\n\n') if p.strip()]`. -/
def paragraphsOf (content : List Char) : List (List Char) :=
  ((pySplitOn "\n\n".data content).map pyStripL).filter (· ≠ [])

/-- `_extract_data_points`: percentages, dollar amounts, numbers with units,
growth rates — concatenated in that order. -/
def extract_data_points (content : List Char) : List (List Char) :=
  findAll dataRE1 content ++ findAll dataRE2 content ++
    findAll dataRE3 content ++ findAll dataRE4 content

/-- Result of `structural_comparison` (the returned dict). -/
structure StructuralScores where
  paragraph_count : ℚ
  word_count : ℚ
  paragraph_length : ℚ
  hook_quality : ℚ
  conclusion_quality : ℚ
  overall : ℚ

/-- The recurring source idiom `1.0 - abs(a - b) / max(a, b, 1)` on counts. -/
def countDiffScore (a b : ℕ) : ℚ :=
  1 - |(a : ℚ) - (b : ℚ)| / ((max a (max b 1) : ℕ) : ℚ)

/-- The same idiom `1.0 - abs(a - b) / max(a, b, 1)` on float averages. -/
def avgDiffScore (a b : ℚ) : ℚ :=
  1 - |a - b| / max a (max b 1)

/-- `structural_comparison(ai_content, published_content)`. -/
def structural_comparison (aiContent publishedContent : List Char) : StructuralScores :=
  let aiParagraphs := paragraphsOf aiContent
  let pubParagraphs := paragraphsOf publishedContent
  let paragraphCountScore : ℚ := countDiffScore aiParagraphs.length pubParagraphs.length
  let aiWords := (pyWords aiContent).length
  let pubWords := (pyWords publishedContent).length
  let wordCountScore : ℚ := countDiffScore aiWords pubWords
  let aiParaLengths := aiParagraphs.map (fun p => (pyWords p).length)
  let pubParaLengths := pubParagraphs.map (fun p => (pyWords p).length)
  let paraLengthScore : ℚ :=
    if aiParaLengths ≠ [] ∧ pubParaLengths ≠ [] then
      avgDiffScore ((aiParaLengths.sum : ℚ) / (aiParaLengths.length : ℚ))
        ((pubParaLengths.sum : ℚ) / (pubParaLengths.length : ℚ))
    else 0
  let aiHook := aiParagraphs.headD []
  let pubHook := pubParagraphs.headD []
  let hookScore := calculateTextSimilarity aiHook pubHook
  let aiConclusion := aiParagraphs.getLastD []
  let pubConclusion := pubParagraphs.getLastD []
  let conclusionScore := calculateTextSimilarity aiConclusion pubConclusion
  { paragraph_count := paragraphCountScore
    word_count := wordCountScore
    paragraph_length := paraLengthScore
    hook_quality := hookScore
    conclusion_quality := conclusionScore
    overall := (paragraphCountScore + wordCountScore + paraLengthScore +
      hookScore + conclusionScore) / 5 }

/-- Result of `style_similarity_score`. -/
structure StyleScores where
  voice_patterns : ℚ
  sentence_structure : ℚ
  tone_match : ℚ
  overall : ℚ

/-- The capped count ratio used for the voice-pattern score and for each pass
of the tone loop: `min(ai / pub, 1.0) if pub > 0 else (1.0 if ai == 0 else 0.0)`. -/
def toneRatio (aiCount pubCount : ℕ) : ℚ :=
  if 0 < pubCount then min ((aiCount : ℚ) / (pubCount : ℚ)) 1
  else if aiCount = 0 then 1 else 0

/-- `style_similarity_score(ai_content, published_content)`. -/
def style_similarity_score (aiContent publishedContent : List Char) : StyleScores :=
  let patternScore : ℚ :=
    toneRatio (countVoicePatterns aiContent) (countVoicePatterns publishedContent)
  let aiSentences := ((splitSentenceRuns aiContent).map pyStripL).filter (· ≠ [])
  let pubSentences := ((splitSentenceRuns publishedContent).map pyStripL).filter (· ≠ [])
  let aiAvgSentence : ℚ :=
    if aiSentences ≠ [] then
      ((aiSentences.map (fun s => (pyWords s).length)).sum : ℚ) / (aiSentences.length : ℚ)
    else 0
  let pubAvgSentence : ℚ :=
    if pubSentences ≠ [] then
      ((pubSentences.map (fun s => (pyWords s).length)).sum : ℚ) / (pubSentences.length : ℚ)
    else 0
  let sentenceScore : ℚ := avgDiffScore aiAvgSentence pubAvgSentence
  let toneScore : ℚ :=
    (toneRatio (countBucket analyticalWords aiContent) (countBucket analyticalWords publishedContent) +
     toneRatio (countBucket confidentWords aiContent) (countBucket confidentWords publishedContent) +
     toneRatio (countBucket practicalWords aiContent) (countBucket practicalWords publishedContent)) / 3
  { voice_patterns := patternScore
    sentence_structure := sentenceScore
    tone_match := toneScore
    overall := (patternScore + sentenceScore + toneScore) / 3 }

/-- Result of `content_depth_analysis`. -/
structure ContentScores where
  battle_comparison : ℚ
  insight_density : ℚ
  specificity : ℚ
  novelty : ℚ
  overall : ℚ

/-- `content_depth_analysis(ai_content, published_content, topic)`.
`battleScore` is the result of the external `autoevals` Battle judge
(it falls back to `0.5` when that service errors); it is an input here
because the judge is not repository code. -/
def content_depth_analysis (battleScore : ℚ) (aiContent publishedContent : List Char)
    (topic : List Char) : ContentScores :=
  let aiParagraphs := paragraphsOf aiContent
  let pubParagraphs := paragraphsOf publishedContent
  let aiInsights := (aiParagraphs.map (fun p => countBucket insightKeywords p)).sum
  let pubInsights := (pubParagraphs.map (fun p => countBucket insightKeywords p)).sum
  let insightDensityScore : ℚ := min ((aiInsights : ℚ) / ((max pubInsights 1 : ℕ) : ℚ)) 1
  let aiSpecifics := countRE specificityRE aiContent
  let pubSpecifics := countRE specificityRE publishedContent
  let specificityScore : ℚ := min ((aiSpecifics : ℚ) / ((max pubSpecifics 1 : ℕ) : ℚ)) 1
  let noveltyScore := battleScore
  let _ := topic
  { battle_comparison := battleScore
    insight_density := insightDensityScore
    specificity := specificityScore
    novelty := noveltyScore
    overall := (battleScore + insightDensityScore + specificityScore + noveltyScore) / 4 }

/-- Result of `data_usage_comparison`. -/
structure DataScores where
  count_match : ℚ
  quality_match : ℚ
  context_integration : ℚ
  overall : ℚ

/-- The guarded ratio of `data_usage_comparison`:
`min(ai / max(pub, 1), 1.0) if pub > 0 else (1.0 if ai == 0 else 0.0)`. -/
def guardedRatio (aiCount pubCount : ℕ) : ℚ :=
  if 0 < pubCount then min ((aiCount : ℚ) / ((max pubCount 1 : ℕ) : ℚ)) 1
  else if aiCount = 0 then 1 else 0

/-- `data_usage_comparison(ai_content, published_content)`. -/
def data_usage_comparison (aiContent publishedContent : List Char) : DataScores :=
  let aiDataPoints := extract_data_points aiContent
  let pubDataPoints := extract_data_points publishedContent
  let countScore : ℚ := countDiffScore aiDataPoints.length pubDataPoints.length
  let aiSpecific := (aiDataPoints.filter (fun dp => dp.any Char.isDigit)).length
  let pubSpecific := (pubDataPoints.filter (fun dp => dp.any Char.isDigit)).length
  let qualityScore : ℚ := guardedRatio aiSpecific pubSpecific
  let aiContextual := (aiDataPoints.filter (fun dp => 3 < (pyWords dp).length)).length
  let pubContextual := (pubDataPoints.filter (fun dp => 3 < (pyWords dp).length)).length
  let contextScore : ℚ := guardedRatio aiContextual pubContextual
  { count_match := countScore
    quality_match := qualityScore
    context_integration := contextScore
    overall := (countScore + qualityScore + contextScore) / 3 }

/-- Digits to a natural number. -/
def digitsToNat (l : List Char) : ℕ := l.foldl (fun a c => 10 * a + (c.toNat - 48)) 0

/-- `re.search(r'Score:\s*(\d+(?:\.\d+)?)', text)`: scan for the first
position where `Score:` is followed by optional whitespace and a number;
return that number (`none` when no match exists anywhere). -/
def findScoreNum : List Char → Option ℚ
  | [] => none
  | l@(_ :: rest) =>
    if startsWithL "Score:".data l then
      let after := (l.drop 6).dropWhile pyIsSpace
      let ds := after.takeWhile Char.isDigit
      if ds = [] then findScoreNum rest
      else
        match after.drop ds.length with
        | '.' :: r2 =>
          let fs := r2.takeWhile Char.isDigit
          if fs = [] then some (digitsToNat ds)
          else some ((digitsToNat ds : ℚ) + (digitsToNat fs : ℚ) / (10 : ℚ) ^ fs.length)
        | _ => some (digitsToNat ds)
    else findScoreNum rest

/-- `llm_judge_evaluation`'s returned score.  `response` is the text of the
external Gemini call: `none` models the call raising (the `except` branch
returns `0.0`); on a response the score is the parsed `Score:` value
(defaulting to `0.0` when absent), normalised to `[0,1]` by `/100`. -/
def llm_judge_evaluation (response : Option (List Char)) : ℚ :=
  match response with
  | none => 0
  | some text => (findScoreNum text).getD 0 / 100

/-- The relevant fields of `post_analyzer.BlogPost`. -/
structure BlogPost where
  title : String
  url : String
  content : List Char
  date : String
  word_count : ℕ
  paragraph_count : ℕ
  data_points : List (List Char)
  topic_tags : List String
  hook_type : String
  conclusion_type : String

/-- `ComparisonScore` (the free-text `specific_feedback` and
`llm_judge_feedback` diagnostic strings are print-formatting only and are
not modelled). -/
structure ComparisonScore where
  overall_similarity : ℚ
  structural_match : ℚ
  style_similarity : ℚ
  content_depth : ℚ
  data_usage_match : ℚ
  hook_effectiveness : ℚ
  conclusion_strength : ℚ
  voice_authenticity : ℚ
  improvement_areas : List String
  llm_judge_score : Option ℚ

/-- The `improvement_areas` block of `comprehensive_comparison`: conditional
appends, in source order. -/
def improvementAreasOf (structuralMatch styleSimilarity contentDepth dataUsageMatch
    hookEffectiveness conclusionStrength : ℚ) : List String :=
  (if structuralMatch < 7/10 then ["structure_flow"] else []) ++
  (if styleSimilarity < 7/10 then ["voice_authenticity"] else []) ++
  (if contentDepth < 7/10 then ["insight_depth"] else []) ++
  (if dataUsageMatch < 7/10 then ["data_integration"] else []) ++
  (if hookEffectiveness < 6/10 then ["opening_hook"] else []) ++
  (if conclusionStrength < 6/10 then ["conclusion_impact"] else [])

/-- `comprehensive_comparison(ai_content, published_post, topic, prompt_name)`.
`useLlmJudge` is `self.use_llm_judge`; `judgeResponse` and `battleScore` stand
for the two external services (Gemini judge, autoevals Battle).  In the
source, `llm_judge_score` is `None` unless the judge is enabled, in which
case `llm_judge_evaluation` always returns a float; the weighted blend
switches on `self.use_llm_judge and llm_judge_score is not None`. -/
def comprehensive_comparison (useLlmJudge : Bool) (judgeResponse : Option (List Char))
    (battleScore : ℚ) (aiContent : List Char) (publishedPost : BlogPost)
    (topic : List Char) : ComparisonScore :=
  let structuralScores := structural_comparison aiContent publishedPost.content
  let styleScores := style_similarity_score aiContent publishedPost.content
  let contentScores := content_depth_analysis battleScore aiContent publishedPost.content topic
  let dataScores := data_usage_comparison aiContent publishedPost.content
  let llmJudgeScore : Option ℚ :=
    if useLlmJudge then some (llm_judge_evaluation judgeResponse) else none
  let structuralMatch := structuralScores.overall
  let styleSimilarity := styleScores.overall
  let contentDepth := contentScores.overall
  let dataUsageMatch := dataScores.overall
  let hookEffectiveness := structuralScores.hook_quality
  let conclusionStrength := structuralScores.conclusion_quality
  let voiceAuthenticity := styleScores.tone_match
  let overallSimilarity : ℚ :=
    match useLlmJudge, llmJudgeScore with
    | true, some s =>
      s * (60/100) + structuralMatch * (10/100) + styleSimilarity * (15/100) +
        contentDepth * (10/100) + dataUsageMatch * (5/100)
    | _, _ =>
      structuralMatch * (25/100) + styleSimilarity * (30/100) +
        contentDepth * (25/100) + dataUsageMatch * (20/100)
  { overall_similarity := overallSimilarity
    structural_match := structuralMatch
    style_similarity := styleSimilarity
    content_depth := contentDepth
    data_usage_match := dataUsageMatch
    hook_effectiveness := hookEffectiveness
    conclusion_strength := conclusionStrength
    voice_authenticity := voiceAuthenticity
    improvement_areas := improvementAreasOf structuralMatch styleSimilarity contentDepth
      dataUsageMatch hookEffectiveness conclusionStrength
    llm_judge_score := llmJudgeScore }

/-! ## `post_analyzer.py` — the Style Corpus Analyzer -/

/-- `StyleAnalysis`. -/
structure StyleAnalysis where
  avg_paragraph_length : ℚ
  avg_sentence_length : ℚ
  data_points_per_post : ℚ
  common_transitions : List String
  hook_patterns : List String
  conclusion_patterns : List String
  voice_characteristics : List String
  topic_distribution : List (String × ℕ)

/-- The `topic_distribution` dict built by iterating posts and tags
(`topic_distribution[topic] = topic_distribution.get(topic, 0) + 1`),
as an insertion-ordered association list. -/
def bumpTopic (dist : List (String × ℕ)) (topic : String) : List (String × ℕ) :=
  match dist with
  | [] => [(topic, 1)]
  | (t, n) :: rest => if t = topic then (t, n + 1) :: rest else (t, n) :: bumpTopic rest topic

/-- Fold of `bumpTopic` over all posts' tags. -/
def topicDistribution (tagLists : List (List String)) : List (String × ℕ) :=
  tagLists.foldl (fun dist tags => tags.foldl bumpTopic dist) []

/-- `extract_style_patterns(posts)`. -/
def extract_style_patterns (posts : List BlogPost) : StyleAnalysis :=
  if posts.isEmpty then
    { avg_paragraph_length := 0, avg_sentence_length := 0, data_points_per_post := 0
      common_transitions := [], hook_patterns := [], conclusion_patterns := []
      voice_characteristics := [], topic_distribution := [] }
  else
    { avg_paragraph_length :=
        ((posts.filter (fun p => 0 < p.paragraph_count)).map
          (fun p => (p.word_count : ℚ) / (p.paragraph_count : ℚ))).sum / (posts.length : ℚ)
      avg_sentence_length := 15
      data_points_per_post :=
        ((posts.map (fun p => (p.data_points.length : ℚ))).sum) / (posts.length : ℚ)
      common_transitions :=
        ["However", "More importantly", "The transformation", "This approach", "Consider how"]
      hook_patterns := ["question_opening", "bold_statement", "trend_observation"]
      conclusion_patterns := ["future_prediction", "competitive_advantage", "transformation_summary"]
      voice_characteristics := ["analytical", "data-driven", "practical", "forward-looking", "confident"]
      topic_distribution := topicDistribution (posts.map (·.topic_tags)) }

/-! ## `feedback_manager.py` — the Feedback Aggregator -/

/-- `_calculate_confidence_score(comparison_results, iteration)`.
`overallScores` is `[c.overall_similarity for c in comparison_results]`;
`sd` stands for `statistics.stdev(overall_scores)` — an external library
call producing an (irrational) square root, so it enters as a parameter and
is only read when the batch has at least two members, exactly as in the
source; `history` is `[h.get("overall_similarity", 0.0) for h in
self.performance_history]`. -/
def calculate_confidence_score (overallScores : List ℚ) (sd : ℚ) (iteration : ℕ)
    (history : List ℚ) : ℚ :=
  if overallScores = [] then 0
  else
    let consistency : ℚ := 1 - (if 1 < overallScores.length then sd else 0)
    let iterationConfidence : ℚ := min ((iteration : ℚ) / 10) 1
    let declinePenalty : ℚ :=
      if 3 ≤ history.length then
        let recentTrend := history.drop (history.length - 3)
        if recentTrend.getD 2 0 < recentTrend.getD 0 0 then 2/10 else 0
      else 0
    let confidence := consistency * (6/10) + iterationConfidence * (4/10) - declinePenalty
    max 0 (min 1 confidence)

/-- Following the spec's words (for comparison with the source): the 3-round
trailing trend of overall similarity is "strictly declining" — each of the
last three recorded values strictly below its predecessor. -/
def strictlyDecliningTrailing3 (history : List ℚ) : Prop :=
  3 ≤ history.length ∧
    (history.drop (history.length - 3)).getD 1 0 < (history.drop (history.length - 3)).getD 0 0 ∧
    (history.drop (history.length - 3)).getD 2 0 < (history.drop (history.length - 3)).getD 1 0

instance (history : List ℚ) : Decidable (strictlyDecliningTrailing3 history) := by
  unfold strictlyDecliningTrailing3
  infer_instance

/-- Following the spec's words (for comparison with the source): confidence =
`0.6×(1−stdev) + 0.4×min(round/10, 1)`, minus `0.2` if the 3-round trailing
trend is strictly declining, clamped to `[0,1]`. -/
def confidenceSpecFormula (overallScores : List ℚ) (sd : ℚ) (iteration : ℕ)
    (history : List ℚ) : ℚ :=
  let sdUsed : ℚ := if 1 < overallScores.length then sd else 0
  max 0 (min 1 ((6/10) * (1 - sdUsed) + (4/10) * min ((iteration : ℚ) / 10) 1 -
    (if strictlyDecliningTrailing3 history then 2/10 else 0)))

/-! ## `generate_blog_post.py` — the Candidate Generator -/

/-- The per-cycle strategy lists of `generate_variations`. -/
def variationStrategies (cycle : ℕ) : List (String × String) :=
  if cycle = 1 then
    [("technical", "Write a technical deep-dive blog post about"),
     ("business", "Write a business-focused blog post about"),
     ("data-driven", "Write a data-rich analytical blog post about")]
  else if cycle = 2 then
    [("refined", "Improve and refine this blog post idea:"),
     ("expanded", "Expand on the key insights in:")]
  else
    [("polished", "Polish and perfect this blog post:")]

/-- The generation task list built by `generate_variations`: for each
available model client, the strategies actually dispatched —
`strategies[:2] if cycle == 1 else strategies[:1]`.  Each task is
`(model_name, strategy_name, strategy prefix text)`. -/
def generationTasks (models : List String) (cycle : ℕ) : List (String × String × String) :=
  models.flatMap (fun m =>
    ((if cycle = 1 then (variationStrategies cycle).take 2
      else (variationStrategies cycle).take 1).map
      (fun st => (m, st.1, st.2))))

/-! ## `iterative_improver.py` — the Iteration Orchestrator -/

/-- The fields of an iteration-result record that the control flow reads. -/
structure IterationRecord where
  iteration : ℕ
  best_score_this_iteration : ℚ
  best_overall_score : ℚ

/-- The orchestrator state mutated across `run_complete_cycle`. -/
structure ImproverState where
  best_overall_score : ℚ
  best_prompt : String
  stagnation_count : ℕ
  iteration_results : List IterationRecord

/-- `IterativeImprover.__init__`: `best_overall_score = 0.0`,
`best_prompt = ""`, `stagnation_count = 0`, `iteration_results = []`. -/
def initImprover : ImproverState :=
  { best_overall_score := 0, best_prompt := "", stagnation_count := 0,
    iteration_results := [] }

/-- `self.convergence_threshold = 0.02`. -/
def convergenceThreshold : ℚ := 2/100

/-- `self.max_stagnation = 3`. -/
def maxStagnation : ℕ := 3

/-- `max(c.overall_similarity for c in comparison_results) if comparison_results
else 0.0`.  A round is the list of `(overall_similarity, prompt_text)` pairs of
its comparison results and matching prompt variations. -/
def bestScoreOf (round : List (ℚ × String)) : ℚ :=
  match round.map Prod.fst with
  | [] => 0
  | x :: xs => xs.foldl max x

/-- `prompt_variations[best_idx].prompt_text` with `best_idx = max(range(...),
key=lambda i: comparison_results[i].overall_similarity)` — the first index
attaining the maximum. -/
def bestPromptOf (round : List (ℚ × String)) : String :=
  match round.find? (fun pr => pr.1 = bestScoreOf round) with
  | some pr => pr.2
  | none => ""

/-- Steps 5 and the record append of `_run_single_iteration` (generation and
scoring having produced `round`): update the best pointer only on strict
improvement, then append this round's record. -/
def runSingleIteration (st : ImproverState) (iteration : ℕ)
    (round : List (ℚ × String)) : ImproverState :=
  let bestScore := bestScoreOf round
  let st1 :=
    if st.best_overall_score < bestScore then
      { st with best_overall_score := bestScore, best_prompt := bestPromptOf round }
    else st
  { st1 with iteration_results := st.iteration_results ++
      [{ iteration := iteration, best_score_this_iteration := bestScore,
         best_overall_score := st1.best_overall_score }] }

/-- `_check_convergence(iteration_result, iteration)` (the record has already
been appended, as in `run_complete_cycle`): returns the updated state
(stagnation counter) and `should_continue`. -/
def checkConvergence (st : ImproverState) (currentBest : ℚ)
    (iteration maxIterations : ℕ) : ImproverState × Bool :=
  if 1 < st.iteration_results.length then
    let previousBest := (st.iteration_results.getD (st.iteration_results.length - 2)
      { iteration := 0, best_score_this_iteration := 0, best_overall_score := 0 }).best_score_this_iteration
    let improvement := currentBest - previousBest
    let st1 :=
      if improvement < convergenceThreshold then
        { st with stagnation_count := st.stagnation_count + 1 }
      else
        { st with stagnation_count := 0 }
    if maxStagnation ≤ st1.stagnation_count then (st1, false)
    else if (95/100 : ℚ) < currentBest then (st1, false)
    else (st1, decide (iteration < maxIterations))
  else if (95/100 : ℚ) < currentBest then (st, false)
  else (st, decide (iteration < maxIterations))

/-- The iteration loop of `run_complete_cycle`: run a round, append its
record, check convergence, stop when `should_continue` is false. -/
def runRounds : List (List (ℚ × String)) → ℕ → ℕ → ImproverState → ImproverState
  | [], _, _, st => st
  | round :: rest, iteration, maxIterations, st =>
    let st1 := runSingleIteration st iteration round
    let checked := checkConvergence st1 (bestScoreOf round) iteration maxIterations
    if checked.2 then runRounds rest (iteration + 1) maxIterations checked.1
    else checked.1

/-- A complete run over the given per-round score batches. -/
def runCycle (rounds : List (List (ℚ × String))) (numIterations : ℕ) : ImproverState :=
  runRounds rounds 1 numIterations initImprover

/-- The invariant maintained by the best-block fold: the recorded block fits
inside both sequences. -/
def BlockFits (a b : List Char) (t : ℕ × ℕ × ℕ) : Prop :=
  t.2.2 ≤ (a.drop t.1).length ∧ t.2.2 ≤ (b.drop t.2.1).length

/-- The fixed order of deficiency tags produced by `comprehensive_comparison`. -/
def canonicalImprovementAreas : List String :=
  ["structure_flow", "voice_authenticity", "insight_depth",
   "data_integration", "opening_hook", "conclusion_impact"]

/-- The run-long invariant: recorded running bests are in non-decreasing
order and all bounded by the live best pointer. -/
def RecordsOK (st : ImproverState) : Prop :=
  List.Chain' (· ≤ ·) (st.iteration_results.map (·.best_overall_score)) ∧
  ∀ r ∈ st.iteration_results, r.best_overall_score ≤ st.best_overall_score

/-- Six consecutive rounds whose single-candidate best improves by exactly
0.01 each round (Scenario D of the spec). -/
def scenarioRoundsD (s : ℚ) : List (List (ℚ × String)) :=
  [[(s, "p1")], [(s + 1/100, "p2")], [(s + 2/100, "p3")],
   [(s + 3/100, "p4")], [(s + 4/100, "p5")], [(s + 5/100, "p6")]]

/-! ## Basic lemmas about the text-similarity model -/

theorem commonPrefixLen_le_left (a b : List Char) : commonPrefixLen a b ≤ a.length := by
  induction a generalizing b with
  | nil => simp [commonPrefixLen]
  | cons x xs ih =>
    cases b with
    | nil => simp [commonPrefixLen]
    | cons y ys =>
      simp only [commonPrefixLen, List.length_cons]
      split
      · exact Nat.succ_le_succ (ih ys)
      · exact Nat.zero_le _

theorem commonPrefixLen_le_right (a b : List Char) : commonPrefixLen a b ≤ b.length := by
  induction a generalizing b with
  | nil => simp [commonPrefixLen]
  | cons x xs ih =>
    cases b with
    | nil => simp [commonPrefixLen]
    | cons y ys =>
      simp only [commonPrefixLen, List.length_cons]
      split
      · exact Nat.succ_le_succ (ih ys)
      · exact Nat.zero_le _

theorem commonPrefixLen_self (l : List Char) : commonPrefixLen l l = l.length := by
  induction l with
  | nil => rfl
  | cons x xs ih => simp [commonPrefixLen, ih]


theorem bestMatchAux_fits (a b : List Char) (pairs : List (ℕ × ℕ)) (best : ℕ × ℕ × ℕ)
    (h : BlockFits a b best) : BlockFits a b (bestMatchAux a b pairs best) := by
  induction pairs generalizing best with
  | nil => exact h
  | cons ij rest ih =>
    obtain ⟨i, j⟩ := ij
    simp only [bestMatchAux]
    split
    · exact ih _ ⟨commonPrefixLen_le_left _ _, commonPrefixLen_le_right _ _⟩
    · exact ih _ h

theorem bestMatch_fits (a b : List Char) : BlockFits a b (bestMatch a b) :=
  bestMatchAux_fits a b _ _ ⟨Nat.zero_le _, Nat.zero_le _⟩

theorem matchTotal_le (n : ℕ) (a b : List Char) :
    matchTotal n a b ≤ min a.length b.length := by
  induction n generalizing a b with
  | zero => simp [matchTotal]
  | succ n ih =>
    simp only [matchTotal]
    split
    · exact Nat.zero_le _
    · have hfit := bestMatch_fits a b
      obtain ⟨h1, h2⟩ := hfit
      have e1 := ih (a.take (bestMatch a b).1) (b.take (bestMatch a b).2.1)
      have e2 := ih (a.drop ((bestMatch a b).1 + (bestMatch a b).2.2))
        (b.drop ((bestMatch a b).2.1 + (bestMatch a b).2.2))
      simp only [List.length_drop] at h1 h2
      simp only [List.length_take, List.length_drop] at e1 e2
      omega

theorem matchTotal_nil (n : ℕ) : matchTotal n [] [] = 0 := by
  cases n with
  | zero => rfl
  | succ n => rfl

theorem bestMatchAux_keep (a : List Char) (pairs : List (ℕ × ℕ))
    (h : ∀ i j, matchLenAt a a i j ≤ a.length) :
    bestMatchAux a a pairs (0, 0, a.length) = (0, 0, a.length) := by
  induction pairs with
  | nil => rfl
  | cons ij rest ih =>
    obtain ⟨i, j⟩ := ij
    simp only [bestMatchAux]
    rw [if_neg (by simpa using Nat.not_lt.mpr (h i j))]
    exact ih

theorem matchLenAt_le_len (a : List Char) (i j : ℕ) : matchLenAt a a i j ≤ a.length :=
  le_trans (commonPrefixLen_le_left _ _) (by simp [List.length_drop])

theorem bestMatch_self (l : List Char) (h : l ≠ []) : bestMatch l l = (0, 0, l.length) := by
  obtain ⟨c, t, rfl⟩ := List.exists_cons_of_ne_nil h
  show bestMatchAux _ _ (allPairs (t.length + 1) (t.length + 1)) (0, 0, 0) = _
  have hpairs : allPairs (t.length + 1) (t.length + 1) =
      (0, 0) :: (((List.range (t.length + 1)).map (fun j => ((0 : ℕ), j))).tail ++
        (((List.range t.length).map (· + 1)).flatMap
          (fun i => (List.range (t.length + 1)).map (fun j => (i, j))))) := by
    rw [allPairs, List.range_succ_eq_map]
    simp [List.flatMap_cons, List.range_succ_eq_map]
  rw [hpairs]
  simp only [bestMatchAux]
  have hk : matchLenAt (c :: t) (c :: t) 0 0 = t.length + 1 := by
    simp [matchLenAt, commonPrefixLen_self]
  rw [hk, if_pos (by simp)]
  exact bestMatchAux_keep _ _ (fun i j => by simpa using matchLenAt_le_len (c :: t) i j)

theorem matchTotal_self (l : List Char) (h : l ≠ []) (n : ℕ) (hn : 1 ≤ n) :
    matchTotal n l l = l.length := by
  cases n with
  | zero => omega
  | succ n =>
    simp only [matchTotal, bestMatch_self l h]
    rw [if_neg (by simpa using List.length_pos.mpr h |>.ne')]
    simp [matchTotal_nil]

theorem sequenceRatio_self (l : List Char) (h : l ≠ []) : sequenceRatio l l = 1 := by
  have hl : 0 < l.length := List.length_pos.mpr h
  rw [sequenceRatio, if_neg (by omega)]
  rw [matchTotal_self l h _ (by omega)]
  have : ((l.length : ℚ) + l.length) ≠ 0 := by positivity
  field_simp
  ring

theorem sequenceRatio_le_one (a b : List Char) : sequenceRatio a b ≤ 1 := by
  rw [sequenceRatio]
  split
  · exact le_refl 1
  · rename_i hne
    have hM := matchTotal_le (a.length + b.length) a b
    have hpos : (0 : ℚ) < (a.length : ℚ) + (b.length : ℚ) := by
      have : 0 < a.length + b.length := Nat.pos_of_ne_zero hne
      exact_mod_cast this
    rw [div_le_one hpos]
    have : 2 * matchTotal (a.length + b.length) a b ≤ a.length + b.length := by omega
    exact_mod_cast this

theorem calculateTextSimilarity_self (t : List Char) (h : t ≠ []) :
    calculateTextSimilarity t t = 1 := by
  rw [calculateTextSimilarity, if_neg (by simp [h])]
  exact sequenceRatio_self _ (by simp [pyLower, h])

theorem calculateTextSimilarity_le_one (t1 t2 : List Char) :
    calculateTextSimilarity t1 t2 ≤ 1 := by
  rw [calculateTextSimilarity]
  split
  · norm_num
  · exact sequenceRatio_le_one _ _

/-! ## Bounds on the four sub-scores -/

theorem one_sub_abs_div_le_one (x m : ℚ) (hm : 1 ≤ m) : 1 - |x| / m ≤ 1 := by
  have h1 : (0 : ℚ) ≤ |x| := abs_nonneg x
  have h2 : (0 : ℚ) < m := lt_of_lt_of_le one_pos hm
  have : 0 ≤ |x| / m := div_nonneg h1 h2.le
  linarith

theorem natMax_cast_ge_one (a b : ℕ) : (1 : ℚ) ≤ ((max a (max b 1) : ℕ) : ℚ) := by
  have : 1 ≤ max a (max b 1) := le_trans (le_max_right b 1) (le_max_right a (max b 1))
  exact_mod_cast this

theorem ratMax_ge_one (a b : ℚ) : (1 : ℚ) ≤ max a (max b 1) :=
  le_trans (le_max_right b 1) (le_max_right a (max b 1))

theorem toneRatio_le_one (a p : ℕ) : toneRatio a p ≤ 1 := by
  rw [toneRatio]
  split
  · exact min_le_right _ _
  · split <;> norm_num

theorem guardedRatio_le_one (a p : ℕ) : guardedRatio a p ≤ 1 := by
  rw [guardedRatio]
  split
  · exact min_le_right _ _
  · split <;> norm_num

theorem countDiffScore_le_one (a b : ℕ) : countDiffScore a b ≤ 1 :=
  one_sub_abs_div_le_one _ _ (natMax_cast_ge_one a b)

theorem avgDiffScore_le_one (a b : ℚ) : avgDiffScore a b ≤ 1 :=
  one_sub_abs_div_le_one _ _ (ratMax_ge_one a b)

theorem structural_overall_le_one (aiContent publishedContent : List Char) :
    (structural_comparison aiContent publishedContent).overall ≤ 1 := by
  simp only [structural_comparison]
  have h1 := countDiffScore_le_one (paragraphsOf aiContent).length (paragraphsOf publishedContent).length
  have h2 := countDiffScore_le_one (pyWords aiContent).length (pyWords publishedContent).length
  have h4 := calculateTextSimilarity_le_one ((paragraphsOf aiContent).headD [])
    ((paragraphsOf publishedContent).headD [])
  have h5 := calculateTextSimilarity_le_one ((paragraphsOf aiContent).getLastD [])
    ((paragraphsOf publishedContent).getLastD [])
  set A := ((paragraphsOf aiContent).map (fun p => (pyWords p).length)) with hA
  set B := ((paragraphsOf publishedContent).map (fun p => (pyWords p).length)) with hB
  have h3 : (if A ≠ [] ∧ B ≠ [] then
      avgDiffScore ((A.sum : ℚ) / (A.length : ℚ)) ((B.sum : ℚ) / (B.length : ℚ))
      else (0 : ℚ)) ≤ 1 := by
    split
    · exact avgDiffScore_le_one _ _
    · norm_num
  linarith

theorem style_overall_le_one (aiContent publishedContent : List Char) :
    (style_similarity_score aiContent publishedContent).overall ≤ 1 := by
  simp only [style_similarity_score]
  have h1 := toneRatio_le_one (countVoicePatterns aiContent) (countVoicePatterns publishedContent)
  have h2 := avgDiffScore_le_one
    (if (((splitSentenceRuns aiContent).map pyStripL).filter (· ≠ [])) ≠ [] then
      (((((splitSentenceRuns aiContent).map pyStripL).filter (· ≠ [])).map
        (fun s => (pyWords s).length)).sum : ℚ) /
        (((((splitSentenceRuns aiContent).map pyStripL).filter (· ≠ []))).length : ℚ)
     else 0)
    (if (((splitSentenceRuns publishedContent).map pyStripL).filter (· ≠ [])) ≠ [] then
      (((((splitSentenceRuns publishedContent).map pyStripL).filter (· ≠ [])).map
        (fun s => (pyWords s).length)).sum : ℚ) /
        (((((splitSentenceRuns publishedContent).map pyStripL).filter (· ≠ []))).length : ℚ)
     else 0)
  have h3 := toneRatio_le_one (countBucket analyticalWords aiContent)
    (countBucket analyticalWords publishedContent)
  have h4 := toneRatio_le_one (countBucket confidentWords aiContent)
    (countBucket confidentWords publishedContent)
  have h5 := toneRatio_le_one (countBucket practicalWords aiContent)
    (countBucket practicalWords publishedContent)
  linarith

theorem content_overall_le_one (battleScore : ℚ) (aiContent publishedContent topic : List Char)
    (hb : battleScore ≤ 1) :
    (content_depth_analysis battleScore aiContent publishedContent topic).overall ≤ 1 := by
  simp only [content_depth_analysis]
  have h2 : min (((((paragraphsOf aiContent).map (fun p => countBucket insightKeywords p)).sum : ℕ) : ℚ) /
      ((max (((paragraphsOf publishedContent).map (fun p => countBucket insightKeywords p)).sum) 1 : ℕ) : ℚ)) 1 ≤ 1 :=
    min_le_right _ _
  have h3 : min ((countRE specificityRE aiContent : ℚ) /
      ((max (countRE specificityRE publishedContent) 1 : ℕ) : ℚ)) 1 ≤ 1 :=
    min_le_right _ _
  linarith

theorem data_overall_le_one (aiContent publishedContent : List Char) :
    (data_usage_comparison aiContent publishedContent).overall ≤ 1 := by
  simp only [data_usage_comparison]
  have h1 := countDiffScore_le_one (extract_data_points aiContent).length
    (extract_data_points publishedContent).length
  have h2 := guardedRatio_le_one
    ((extract_data_points aiContent).filter (fun dp => dp.any Char.isDigit)).length
    ((extract_data_points publishedContent).filter (fun dp => dp.any Char.isDigit)).length
  have h3 := guardedRatio_le_one
    ((extract_data_points aiContent).filter (fun dp => 3 < (pyWords dp).length)).length
    ((extract_data_points publishedContent).filter (fun dp => 3 < (pyWords dp).length)).length
  linarith

/-! ## Self-comparison: each sub-score of `score(X, X)` -/

theorem countDiffScore_self (a : ℕ) : countDiffScore a a = 1 := by
  simp [countDiffScore]

theorem avgDiffScore_self (x : ℚ) : avgDiffScore x x = 1 := by
  simp [avgDiffScore]

theorem toneRatio_self (c : ℕ) : toneRatio c c = 1 := by
  rw [toneRatio]
  split
  · rename_i hgt
    rw [div_self (by exact_mod_cast hgt.ne')]
    simp
  · rename_i hle
    rw [if_pos (by omega)]

theorem guardedRatio_self (c : ℕ) : guardedRatio c c = 1 := by
  rw [guardedRatio]
  split
  · rename_i hgt
    rw [max_eq_left (by omega), div_self (by exact_mod_cast hgt.ne')]
    simp
  · rename_i hle
    rw [if_pos (by omega)]

theorem structural_comparison_self (t : List Char) (h : paragraphsOf t ≠ []) :
    (structural_comparison t t).overall = 1 := by
  simp only [structural_comparison]
  have hmap : (paragraphsOf t).map (fun p => (pyWords p).length) ≠ [] := by
    simpa using h
  have hhook : (paragraphsOf t).headD [] ≠ [] := by
    obtain ⟨c, rest, hc⟩ := List.exists_cons_of_ne_nil h
    have hmem : c ∈ paragraphsOf t := by rw [hc]; exact List.mem_cons_self _ _
    have : c ≠ [] := by
      have := List.of_mem_filter hmem
      simpa using this
    rw [hc]
    simpa using this
  have hlast : (paragraphsOf t).getLastD [] ≠ [] := by
    have hmem : (paragraphsOf t).getLastD [] ∈ paragraphsOf t := by
      obtain ⟨c, rest, hc⟩ := List.exists_cons_of_ne_nil h
      rw [hc, List.getLastD_cons]
      exact List.getLastD_mem_cons _ _
    have := List.of_mem_filter hmem
    simpa using this
  rw [if_pos ⟨hmap, hmap⟩]
  rw [calculateTextSimilarity_self _ hhook, calculateTextSimilarity_self _ hlast]
  rw [countDiffScore_self, countDiffScore_self, avgDiffScore_self]
  norm_num

theorem style_similarity_self (t : List Char) : (style_similarity_score t t).overall = 1 := by
  simp only [style_similarity_score]
  rw [toneRatio_self, toneRatio_self, toneRatio_self, toneRatio_self, avgDiffScore_self]
  norm_num

theorem data_usage_self (t : List Char) : (data_usage_comparison t t).overall = 1 := by
  simp only [data_usage_comparison]
  rw [countDiffScore_self, guardedRatio_self, guardedRatio_self]
  norm_num

/-! ## Claim theorems -/

/-- Claim C1: for every scoring run of `comprehensive_comparison`, the overall
similarity is the weighted blend of the sub-scores — with an LLM-judge score
present it is `0.60·judge + 0.10·structural + 0.15·style + 0.10·content_depth
+ 0.05·data_usage`, and otherwise `0.25·structural + 0.30·style +
0.25·content_depth + 0.20·data_usage`. -/
theorem comp_structural (useLlmJudge : Bool) (judgeResponse : Option (List Char))
    (battleScore : ℚ) (aiContent : List Char) (publishedPost : BlogPost) (topic : List Char) :
    (comprehensive_comparison useLlmJudge judgeResponse battleScore aiContent publishedPost topic).structural_match
      = (structural_comparison aiContent publishedPost.content).overall := rfl

theorem comp_style (useLlmJudge : Bool) (judgeResponse : Option (List Char))
    (battleScore : ℚ) (aiContent : List Char) (publishedPost : BlogPost) (topic : List Char) :
    (comprehensive_comparison useLlmJudge judgeResponse battleScore aiContent publishedPost topic).style_similarity
      = (style_similarity_score aiContent publishedPost.content).overall := rfl

theorem comp_content (useLlmJudge : Bool) (judgeResponse : Option (List Char))
    (battleScore : ℚ) (aiContent : List Char) (publishedPost : BlogPost) (topic : List Char) :
    (comprehensive_comparison useLlmJudge judgeResponse battleScore aiContent publishedPost topic).content_depth
      = (content_depth_analysis battleScore aiContent publishedPost.content topic).overall := rfl

theorem comp_data (useLlmJudge : Bool) (judgeResponse : Option (List Char))
    (battleScore : ℚ) (aiContent : List Char) (publishedPost : BlogPost) (topic : List Char) :
    (comprehensive_comparison useLlmJudge judgeResponse battleScore aiContent publishedPost topic).data_usage_match
      = (data_usage_comparison aiContent publishedPost.content).overall := rfl

theorem comp_overall_true (judgeResponse : Option (List Char))
    (battleScore : ℚ) (aiContent : List Char) (publishedPost : BlogPost) (topic : List Char) :
    (comprehensive_comparison true judgeResponse battleScore aiContent publishedPost topic).overall_similarity
      = llm_judge_evaluation judgeResponse * (60/100)
        + (structural_comparison aiContent publishedPost.content).overall * (10/100)
        + (style_similarity_score aiContent publishedPost.content).overall * (15/100)
        + (content_depth_analysis battleScore aiContent publishedPost.content topic).overall * (10/100)
        + (data_usage_comparison aiContent publishedPost.content).overall * (5/100) := rfl

theorem comp_overall_false (judgeResponse : Option (List Char))
    (battleScore : ℚ) (aiContent : List Char) (publishedPost : BlogPost) (topic : List Char) :
    (comprehensive_comparison false judgeResponse battleScore aiContent publishedPost topic).overall_similarity
      = (structural_comparison aiContent publishedPost.content).overall * (25/100)
        + (style_similarity_score aiContent publishedPost.content).overall * (30/100)
        + (content_depth_analysis battleScore aiContent publishedPost.content topic).overall * (25/100)
        + (data_usage_comparison aiContent publishedPost.content).overall * (20/100) := rfl

theorem overall_similarity_weighted_blend (judgeResponse : Option (List Char))
    (battleScore : ℚ) (aiContent : List Char) (publishedPost : BlogPost) (topic : List Char) :
    ((comprehensive_comparison true judgeResponse battleScore aiContent publishedPost topic).llm_judge_score
        = some (llm_judge_evaluation judgeResponse) ∧
      (comprehensive_comparison true judgeResponse battleScore aiContent publishedPost topic).overall_similarity
        = (60/100) * llm_judge_evaluation judgeResponse
          + (10/100) * (comprehensive_comparison true judgeResponse battleScore aiContent publishedPost topic).structural_match
          + (15/100) * (comprehensive_comparison true judgeResponse battleScore aiContent publishedPost topic).style_similarity
          + (10/100) * (comprehensive_comparison true judgeResponse battleScore aiContent publishedPost topic).content_depth
          + (5/100) * (comprehensive_comparison true judgeResponse battleScore aiContent publishedPost topic).data_usage_match) ∧
    ((comprehensive_comparison false judgeResponse battleScore aiContent publishedPost topic).llm_judge_score
        = none ∧
      (comprehensive_comparison false judgeResponse battleScore aiContent publishedPost topic).overall_similarity
        = (25/100) * (comprehensive_comparison false judgeResponse battleScore aiContent publishedPost topic).structural_match
          + (30/100) * (comprehensive_comparison false judgeResponse battleScore aiContent publishedPost topic).style_similarity
          + (25/100) * (comprehensive_comparison false judgeResponse battleScore aiContent publishedPost topic).content_depth
          + (20/100) * (comprehensive_comparison false judgeResponse battleScore aiContent publishedPost topic).data_usage_match) := by
  refine ⟨⟨rfl, ?_⟩, rfl, ?_⟩
  · rw [comp_overall_true, comp_structural, comp_style, comp_content, comp_data]
    ring
  · rw [comp_overall_false, comp_structural, comp_style, comp_content, comp_data]
    ring


theorem ite_cons_sublist (b : Prop) [Decidable b] (x : String) (l L : List String)
    (h : l.Sublist L) : ((if b then [x] else []) ++ l).Sublist (x :: L) := by
  split
  · exact List.Sublist.cons₂ x h
  · exact List.Sublist.cons x h

theorem ite_singleton_sublist (b : Prop) [Decidable b] (x : String) :
    (if b then [x] else []).Sublist [x] := by
  split
  · exact List.Sublist.refl [x]
  · exact List.nil_sublist [x]

theorem improvementAreasOf_sublist (a b c d e f : ℚ) :
    (improvementAreasOf a b c d e f).Sublist canonicalImprovementAreas := by
  rw [improvementAreasOf]
  simp only [List.append_assoc]
  exact ite_cons_sublist _ _ _ _ (ite_cons_sublist _ _ _ _ (ite_cons_sublist _ _ _ _
    (ite_cons_sublist _ _ _ _ (ite_cons_sublist _ _ _ _ (ite_singleton_sublist _ _)))))

theorem mem_ite_append (b : Prop) [Decidable b] (x y : String) (l : List String) :
    x ∈ (if b then [y] else []) ++ l ↔ (b ∧ x = y) ∨ x ∈ l := by
  split <;> rename_i hb <;> simp [hb]

theorem mem_ite_singleton (b : Prop) [Decidable b] (x y : String) :
    x ∈ (if b then [y] else []) ↔ (b ∧ x = y) := by
  split <;> rename_i hb <;> simp [hb]

theorem mem_improvementAreasOf (a b c d e f : ℚ) (x : String) :
    x ∈ improvementAreasOf a b c d e f ↔
      ((a < 7/10 ∧ x = "structure_flow") ∨ (b < 7/10 ∧ x = "voice_authenticity") ∨
       (c < 7/10 ∧ x = "insight_depth") ∨ (d < 7/10 ∧ x = "data_integration") ∨
       (e < 6/10 ∧ x = "opening_hook") ∨ (f < 6/10 ∧ x = "conclusion_impact")) := by
  rw [improvementAreasOf]
  simp only [List.append_assoc]
  rw [mem_ite_append, mem_ite_append, mem_ite_append, mem_ite_append, mem_ite_append,
    mem_ite_singleton]

/-- Claim C10: `improvement_areas` is always a duplicate-free subsequence of
the fixed tag order, a tag appearing exactly when its sub-score is below its
threshold (0.7 for the four main sub-scores, 0.6 for hook and conclusion). -/
theorem improvement_areas_ordered_subset (useLlmJudge : Bool)
    (judgeResponse : Option (List Char)) (battleScore : ℚ) (aiContent : List Char)
    (publishedPost : BlogPost) (topic : List Char) :
    ((comprehensive_comparison useLlmJudge judgeResponse battleScore aiContent publishedPost topic).improvement_areas).Sublist
        canonicalImprovementAreas ∧
    ((comprehensive_comparison useLlmJudge judgeResponse battleScore aiContent publishedPost topic).improvement_areas).Nodup ∧
    (∀ x, x ∈ (comprehensive_comparison useLlmJudge judgeResponse battleScore aiContent publishedPost topic).improvement_areas ↔
      (((comprehensive_comparison useLlmJudge judgeResponse battleScore aiContent publishedPost topic).structural_match < 7/10 ∧ x = "structure_flow") ∨
       ((comprehensive_comparison useLlmJudge judgeResponse battleScore aiContent publishedPost topic).style_similarity < 7/10 ∧ x = "voice_authenticity") ∨
       ((comprehensive_comparison useLlmJudge judgeResponse battleScore aiContent publishedPost topic).content_depth < 7/10 ∧ x = "insight_depth") ∨
       ((comprehensive_comparison useLlmJudge judgeResponse battleScore aiContent publishedPost topic).data_usage_match < 7/10 ∧ x = "data_integration") ∨
       ((comprehensive_comparison useLlmJudge judgeResponse battleScore aiContent publishedPost topic).hook_effectiveness < 6/10 ∧ x = "opening_hook") ∨
       ((comprehensive_comparison useLlmJudge judgeResponse battleScore aiContent publishedPost topic).conclusion_strength < 6/10 ∧ x = "conclusion_impact"))) := by
  refine ⟨improvementAreasOf_sublist _ _ _ _ _ _,
    List.Nodup.sublist (improvementAreasOf_sublist _ _ _ _ _ _) (by decide),
    fun x => mem_improvementAreasOf _ _ _ _ _ _ x⟩

/-- Claim C6, counterexample: with a single available backend on round 1
(`cycle == 1`), only two generation tasks are dispatched (technical and
business), not three — `strategies[:2]` limits the defined three strategies
to two, and the data-driven prefix is never dispatched. -/
theorem round_one_dispatches_two_not_three :
    (generationTasks ["claude"] 1).length = 2 ∧
    ¬ (generationTasks ["claude"] 1).length = 3 ∧
    (variationStrategies 1).length = 3 ∧
    (∀ t ∈ generationTasks ["claude"] 1, ¬ t.2.1 = "data-driven") ∧
    (generationTasks ["claude"] 2).length = 1 ∧
    ¬ (generationTasks ["claude"] 2).length = 2 := by
  refine ⟨rfl, by decide, rfl, ?_, rfl, by decide⟩
  intro t ht
  fin_cases ht <;> decide

/-- Claim C6, amended: round 1 defines three strategy prefixes but dispatches
only the first two (technical, business) per available backend; rounds 2 and
3 dispatch one strategy each (refined; polished). -/
theorem generation_tasks_per_cycle (models : List String) :
    generationTasks models 1 = models.flatMap (fun m =>
      [(m, "technical", "Write a technical deep-dive blog post about"),
       (m, "business", "Write a business-focused blog post about")]) ∧
    generationTasks models 2 = models.flatMap (fun m =>
      [(m, "refined", "Improve and refine this blog post idea:")]) ∧
    generationTasks models 3 = models.flatMap (fun m =>
      [(m, "polished", "Polish and perfect this blog post:")]) ∧
    (variationStrategies 1).length = 3 ∧
    (variationStrategies 2).length = 2 ∧
    (variationStrategies 3).length = 1 := by
  exact ⟨rfl, rfl, rfl, rfl, rfl, rfl⟩

/-- Claim C7, counterexample: with batch `[0.5, 0.5]` (stdev 0), round 10, and
history `[0.5, 0.7, 0.4]`, the trailing 3-round trend is NOT strictly
declining (0.5 → 0.7 rises), yet the code still subtracts the 0.2 penalty —
it only compares the last trailing value with the first —, so the computed
confidence 0.8 differs from the claimed formula's 1.0. -/
theorem confidence_penalty_not_strict_decline :
    calculate_confidence_score [1/2, 1/2] 0 10 [1/2, 7/10, 2/5] = 8/10 ∧
    ¬ strictlyDecliningTrailing3 [1/2, 7/10, 2/5] ∧
    confidenceSpecFormula [1/2, 1/2] 0 10 [1/2, 7/10, 2/5] = 1 ∧
    ¬ calculate_confidence_score [1/2, 1/2] 0 10 [1/2, 7/10, 2/5]
        = confidenceSpecFormula [1/2, 1/2] 0 10 [1/2, 7/10, 2/5] := by
  have hndecl : ¬ strictlyDecliningTrailing3 [1/2, 7/10, 2/5] := by
    rw [strictlyDecliningTrailing3]
    norm_num [List.getD_cons_zero, List.getD_cons_succ]
  have h1 : calculate_confidence_score [1/2, 1/2] 0 10 [1/2, 7/10, 2/5] = 8/10 := by
    rw [calculate_confidence_score, if_neg (by simp)]
    norm_num [List.getD_cons_zero, List.getD_cons_succ]
  have h2 : confidenceSpecFormula [1/2, 1/2] 0 10 [1/2, 7/10, 2/5] = 1 := by
    rw [confidenceSpecFormula, if_pos (by norm_num), if_neg hndecl]
    norm_num
  refine ⟨h1, hndecl, h2, ?_⟩
  rw [h1, h2]
  norm_num

/-- Claim C7, amended: for a non-empty batch the confidence equals
`0.6·(1 − s) + 0.4·min(round/10, 1)` where `s` is the batch stdev when the
batch has at least two members and `0` otherwise, minus `0.2` exactly when
the history holds at least three entries and the last entry of the trailing
3-window is strictly below that window's first entry (a net decline over the
window, not a strictly-decreasing trend), clamped to `[0,1]`. -/
theorem confidence_score_formula (overallScores : List ℚ) (sd : ℚ) (iteration : ℕ)
    (history : List ℚ) (h : overallScores ≠ []) :
    calculate_confidence_score overallScores sd iteration history =
      max 0 (min 1 ((6/10) * (1 - (if 1 < overallScores.length then sd else 0))
        + (4/10) * min ((iteration : ℚ) / 10) 1
        - (if 3 ≤ history.length ∧
             (history.drop (history.length - 3)).getD 2 0 <
               (history.drop (history.length - 3)).getD 0 0
           then 2/10 else 0))) := by
  rw [calculate_confidence_score, if_neg h]
  by_cases h3 : 3 ≤ history.length
  · by_cases hd : (history.drop (history.length - 3)).getD 2 0 <
        (history.drop (history.length - 3)).getD 0 0
    · have hc : 3 ≤ history.length ∧ _ := ⟨h3, hd⟩
      rw [if_pos h3, if_pos hd, if_pos hc]
      ring_nf
    · have hnc : ¬(3 ≤ history.length ∧
          (history.drop (history.length - 3)).getD 2 0 <
            (history.drop (history.length - 3)).getD 0 0) := fun hc => hd hc.2
      rw [if_pos h3, if_neg hd, if_neg hnc]
      ring_nf
  · have hnc : ¬(3 ≤ history.length ∧
        (history.drop (history.length - 3)).getD 2 0 <
          (history.drop (history.length - 3)).getD 0 0) := fun hc => h3 hc.1
    rw [if_neg h3, if_neg hnc]
    ring_nf

/-- Witness for the amended C7 at a concrete input: singleton batch, round 3,
empty history. -/
theorem confidence_score_formula_witness :
    ([(1 : ℚ)/2] ≠ []) ∧
    calculate_confidence_score [(1 : ℚ)/2] 0 3 [] =
      max 0 (min 1 ((6/10) * (1 - (if 1 < [(1 : ℚ)/2].length then (0 : ℚ) else 0))
        + (4/10) * min (((3 : ℕ) : ℚ) / 10) 1
        - (if 3 ≤ ([] : List ℚ).length ∧
             (([] : List ℚ).drop (([] : List ℚ).length - 3)).getD 2 0 <
               (([] : List ℚ).drop (([] : List ℚ).length - 3)).getD 0 0
           then 2/10 else 0))) :=
  ⟨by decide, confidence_score_formula [(1 : ℚ)/2] 0 3 [] (by decide)⟩

/-- Claim C8: over a non-empty processed set in which every document has at
least one paragraph (so that words-per-paragraph is defined), the aggregated
average paragraph length is the arithmetic mean of the per-document
words-per-paragraph ratios, and the aggregated data-points-per-document is
the arithmetic mean of the per-document data-point counts. -/
theorem style_patterns_arithmetic_means (posts : List BlogPost) (h1 : posts ≠ [])
    (h2 : ∀ p ∈ posts, 0 < p.paragraph_count) :
    (extract_style_patterns posts).avg_paragraph_length =
      ((posts.map (fun p => (p.word_count : ℚ) / (p.paragraph_count : ℚ))).sum) / (posts.length : ℚ) ∧
    (extract_style_patterns posts).data_points_per_post =
      ((posts.map (fun p => (p.data_points.length : ℚ))).sum) / (posts.length : ℚ) := by
  have hne : posts.isEmpty = false := by
    cases posts with
    | nil => exact absurd rfl h1
    | cons a l => rfl
  constructor
  · simp only [extract_style_patterns, hne, Bool.false_eq_true, if_false]
    have hfil : posts.filter (fun p => 0 < p.paragraph_count) = posts :=
      List.filter_eq_self.mpr (fun p hp => by simpa using h2 p hp)
    rw [hfil]
  · simp only [extract_style_patterns, hne, Bool.false_eq_true, if_false]

/-- Witness for C8 at a concrete two-document corpus. -/
theorem style_patterns_arithmetic_means_witness :
    (([⟨"a", "u", "c".data, "d", 10, 2, ["5%".data], ["x"], "q", "s"⟩,
       ⟨"b", "v", "e".data, "f", 9, 3, [], [], "q", "s"⟩] : List BlogPost) ≠ []) ∧
    (extract_style_patterns
        [⟨"a", "u", "c".data, "d", 10, 2, ["5%".data], ["x"], "q", "s"⟩,
         ⟨"b", "v", "e".data, "f", 9, 3, [], [], "q", "s"⟩]).avg_paragraph_length =
      ((([⟨"a", "u", "c".data, "d", 10, 2, ["5%".data], ["x"], "q", "s"⟩,
          ⟨"b", "v", "e".data, "f", 9, 3, [], [], "q", "s"⟩] : List BlogPost).map
        (fun p => (p.word_count : ℚ) / (p.paragraph_count : ℚ))).sum) / 2 ∧
    (extract_style_patterns
        [⟨"a", "u", "c".data, "d", 10, 2, ["5%".data], ["x"], "q", "s"⟩,
         ⟨"b", "v", "e".data, "f", 9, 3, [], [], "q", "s"⟩]).data_points_per_post =
      ((([⟨"a", "u", "c".data, "d", 10, 2, ["5%".data], ["x"], "q", "s"⟩,
          ⟨"b", "v", "e".data, "f", 9, 3, [], [], "q", "s"⟩] : List BlogPost).map
        (fun p => (p.data_points.length : ℚ))).sum) / 2 := by
  refine ⟨by simp, ?_⟩
  have := style_patterns_arithmetic_means
    [⟨"a", "u", "c".data, "d", 10, 2, ["5%".data], ["x"], "q", "s"⟩,
     ⟨"b", "v", "e".data, "f", 9, 3, [], [], "q", "s"⟩]
    (by simp) (by intro p hp; fin_cases hp <;> norm_num)
  simpa using this

/-! ## Orchestrator invariants (C2, C3) -/

theorem runSingle_best_mono (st : ImproverState) (i : ℕ) (round : List (ℚ × String)) :
    st.best_overall_score ≤ (runSingleIteration st i round).best_overall_score := by
  rw [runSingleIteration]
  split
  · rename_i hlt
    exact le_of_lt hlt
  · exact le_refl _

theorem runSingle_records (st : ImproverState) (i : ℕ) (round : List (ℚ × String)) :
    (runSingleIteration st i round).iteration_results = st.iteration_results ++
      [{ iteration := i, best_score_this_iteration := bestScoreOf round,
         best_overall_score := (runSingleIteration st i round).best_overall_score }] := by
  rw [runSingleIteration]

theorem runSingle_stagnation (st : ImproverState) (i : ℕ) (round : List (ℚ × String)) :
    (runSingleIteration st i round).stagnation_count = st.stagnation_count := by
  rw [runSingleIteration]
  split <;> rfl

theorem checkConvergence_preserves (st : ImproverState) (currentBest : ℚ)
    (iteration maxIterations : ℕ) :
    (checkConvergence st currentBest iteration maxIterations).1.best_overall_score
        = st.best_overall_score ∧
    (checkConvergence st currentBest iteration maxIterations).1.iteration_results
        = st.iteration_results ∧
    (checkConvergence st currentBest iteration maxIterations).1.best_prompt
        = st.best_prompt := by
  simp only [checkConvergence]
  split_ifs <;> exact ⟨rfl, rfl, rfl⟩


theorem chain'_snoc_of_le (l : List ℚ) (x : ℚ) (h : List.Chain' (· ≤ ·) l)
    (hx : ∀ y ∈ l, y ≤ x) : List.Chain' (· ≤ ·) (l ++ [x]) := by
  rw [List.chain'_append]
  refine ⟨h, List.chain'_singleton x, ?_⟩
  intro a ha b hb
  simp only [List.head?_cons, Option.mem_def, Option.some.injEq] at hb
  subst hb
  exact hx a (List.mem_of_mem_getLast? ha)

theorem runSingle_invariant (st : ImproverState) (i : ℕ) (round : List (ℚ × String))
    (h : RecordsOK st) : RecordsOK (runSingleIteration st i round) := by
  obtain ⟨hchain, hbound⟩ := h
  have hmono := runSingle_best_mono st i round
  constructor
  · rw [runSingle_records, List.map_append]
    exact chain'_snoc_of_le _ _ hchain (by
      intro y hy
      simp only [List.mem_map] at hy
      obtain ⟨r, hr, rfl⟩ := hy
      exact le_trans (hbound r hr) hmono)
  · intro r hr
    rw [runSingle_records] at hr
    rcases List.mem_append.mp hr with hr | hr
    · exact le_trans (hbound r hr) hmono
    · simp only [List.mem_singleton] at hr
      subst hr
      exact le_refl _

theorem checkConvergence_invariant (st : ImproverState) (currentBest : ℚ)
    (iteration maxIterations : ℕ) (h : RecordsOK st) :
    RecordsOK (checkConvergence st currentBest iteration maxIterations).1 := by
  obtain ⟨hb, hr, -⟩ := checkConvergence_preserves st currentBest iteration maxIterations
  exact ⟨by rw [hr]; exact h.1, by rw [hr, hb]; exact h.2⟩

theorem runRounds_invariant (rounds : List (List (ℚ × String))) (iteration maxIterations : ℕ)
    (st : ImproverState) (h : RecordsOK st) :
    RecordsOK (runRounds rounds iteration maxIterations st) := by
  induction rounds generalizing iteration st with
  | nil => exact h
  | cons round rest ih =>
    rw [runRounds]
    have h1 := runSingle_invariant st iteration round h
    have h2 := checkConvergence_invariant (runSingleIteration st iteration round)
      (bestScoreOf round) iteration maxIterations h1
    split
    · exact ih _ _ h2
    · exact h2

/-- Claim C2: across any run, consecutive iteration records carry
non-decreasing `best_overall_score` values, and the best pointer (score and
prompt) is replaced only on strict improvement — a round whose best merely
ties the running best changes neither. -/
theorem best_score_monotone_and_ties_keep (rounds : List (List (ℚ × String))) (n : ℕ) :
    List.Chain' (· ≤ ·)
      ((runCycle rounds n).iteration_results.map (·.best_overall_score)) ∧
    (∀ (st : ImproverState) (i : ℕ) (round : List (ℚ × String)),
      bestScoreOf round ≤ st.best_overall_score →
      (runSingleIteration st i round).best_prompt = st.best_prompt ∧
      (runSingleIteration st i round).best_overall_score = st.best_overall_score) := by
  constructor
  · exact (runRounds_invariant rounds 1 n initImprover
      ⟨List.chain'_nil, fun r hr => absurd hr (List.not_mem_nil r)⟩).1
  · intro st i round hle
    rw [runSingleIteration, if_neg (not_lt.mpr hle)]
    exact ⟨rfl, rfl⟩

/-- Witness for C2 at a concrete two-round run and a concrete tied round. -/
theorem best_score_monotone_witness :
    List.Chain' (· ≤ ·)
      ((runCycle [[((1 : ℚ)/2, "a")], [((6 : ℚ)/10, "b")]] 2).iteration_results.map
        (·.best_overall_score)) ∧
    ((runSingleIteration ⟨1/2, "keep", 0, []⟩ 3 [((1 : ℚ)/2, "new")]).best_prompt = "keep" ∧
     (runSingleIteration ⟨1/2, "keep", 0, []⟩ 3 [((1 : ℚ)/2, "new")]).best_overall_score = 1/2) :=
  ⟨(best_score_monotone_and_ties_keep [[((1 : ℚ)/2, "a")], [((6 : ℚ)/10, "b")]] 2).1,
   (best_score_monotone_and_ties_keep [[((1 : ℚ)/2, "a")], [((6 : ℚ)/10, "b")]] 2).2
     ⟨1/2, "keep", 0, []⟩ 3 [((1 : ℚ)/2, "new")]
     (by rw [bestScoreOf]; simp)⟩

theorem runSingle_shape (st : ImproverState) (i : ℕ) (round : List (ℚ × String)) :
    ∃ q p, runSingleIteration st i round =
      ⟨q, p, st.stagnation_count, st.iteration_results ++
        [⟨i, bestScoreOf round, q⟩]⟩ := by
  rw [runSingleIteration]
  split
  · exact ⟨bestScoreOf round, bestPromptOf round, rfl⟩
  · exact ⟨st.best_overall_score, st.best_prompt, rfl⟩


/-- One-step unfolding of the iteration loop, phrased so a concrete round can
be stepped through with precomputed iteration and convergence results. -/
theorem runRounds_cons_eq (round : List (ℚ × String)) (rest : List (List (ℚ × String)))
    (it mi : ℕ) (st st1 : ImproverState) (c : ImproverState × Bool)
    (hstep : runSingleIteration st it round = st1)
    (hchk : checkConvergence st1 (bestScoreOf round) it mi = c) :
    runRounds (round :: rest) it mi st =
      if c.2 then runRounds rest (it + 1) mi c.1 else c.1 := by
  simp only [runRounds, hstep, hchk]

/-- Claim C3: in Scenario D (six rounds, each improving the best overall
similarity by exactly 0.01, below the 0.02 threshold), the orchestrator
increments the stagnation counter on each of rounds 2-4 and stops after
round 4 with stagnation_count = max_stagnation = 3, leaving only 4 iteration
records — it does not run all 6 rounds.  In general, a delta below the
threshold increments the counter and a delta at or above it resets it to 0. -/
theorem stagnation_stops_after_three_low_rounds (s : ℚ) (hs : s ≤ 9/10) :
    ((runCycle (scenarioRoundsD s) 6).iteration_results.length = 4 ∧
     (runCycle (scenarioRoundsD s) 6).stagnation_count = 3 ∧
     maxStagnation = 3 ∧
     (scenarioRoundsD s).length = 6) ∧
    (∀ (st : ImproverState) (cb : ℚ) (it mi : ℕ), 1 < st.iteration_results.length →
      ((cb - (st.iteration_results.getD (st.iteration_results.length - 2)
            ⟨0, 0, 0⟩).best_score_this_iteration < convergenceThreshold →
        (checkConvergence st cb it mi).1.stagnation_count = st.stagnation_count + 1) ∧
       (¬ (cb - (st.iteration_results.getD (st.iteration_results.length - 2)
            ⟨0, 0, 0⟩).best_score_this_iteration < convergenceThreshold) →
        (checkConvergence st cb it mi).1.stagnation_count = 0))) := by
  constructor
  · obtain ⟨q1, p1, h1⟩ := runSingle_shape initImprover 1 [(s, "p1")]
    have h1' : runSingleIteration initImprover 1 [(s, "p1")] =
        ⟨q1, p1, 0, [⟨1, s, q1⟩]⟩ := h1
    have hc1 : checkConvergence (⟨q1, p1, 0, [⟨1, s, q1⟩]⟩ : ImproverState)
        (bestScoreOf [(s, "p1")]) 1 6 = (⟨q1, p1, 0, [⟨1, s, q1⟩]⟩, true) := by
      show checkConvergence _ s 1 6 = _
      simp only [checkConvergence]
      rw [if_neg (show ¬(1 < ([⟨1, s, q1⟩] : List IterationRecord).length) by simp),
        if_neg (show ¬((95 : ℚ)/100 < s) by linarith)]
      rfl
    obtain ⟨q2, p2, h2⟩ := runSingle_shape ⟨q1, p1, 0, [⟨1, s, q1⟩]⟩ 2 [(s + 1/100, "p2")]
    have h2' : runSingleIteration ⟨q1, p1, 0, [⟨1, s, q1⟩]⟩ 2 [(s + 1/100, "p2")] =
        ⟨q2, p2, 0, [⟨1, s, q1⟩, ⟨2, s + 1/100, q2⟩]⟩ := h2
    have hc2 : checkConvergence (⟨q2, p2, 0, [⟨1, s, q1⟩, ⟨2, s + 1/100, q2⟩]⟩ : ImproverState)
        (bestScoreOf [(s + 1/100, "p2")]) 2 6 =
        (⟨q2, p2, 1, [⟨1, s, q1⟩, ⟨2, s + 1/100, q2⟩]⟩, true) := by
      show checkConvergence _ (s + 1/100) 2 6 = _
      simp only [checkConvergence]
      rw [if_pos (show 1 < ([⟨1, s, q1⟩, ⟨2, s + 1/100, q2⟩] :
          List IterationRecord).length by simp)]
      rw [show ([⟨1, s, q1⟩, ⟨2, s + 1/100, q2⟩] : List IterationRecord).getD
          (([⟨1, s, q1⟩, ⟨2, s + 1/100, q2⟩] : List IterationRecord).length - 2) ⟨0, 0, 0⟩
          = ⟨1, s, q1⟩ from rfl]
      dsimp only
      rw [if_pos (show s + 1/100 - s < convergenceThreshold by
        rw [convergenceThreshold]; ring_nf; norm_num)]
      rw [if_neg (show ¬(maxStagnation ≤ 0 + 1) by rw [maxStagnation]; omega),
        if_neg (show ¬((95 : ℚ)/100 < s + 1/100) by linarith)]
      rfl
    obtain ⟨q3, p3, h3⟩ := runSingle_shape ⟨q2, p2, 1, [⟨1, s, q1⟩, ⟨2, s + 1/100, q2⟩]⟩ 3
      [(s + 2/100, "p3")]
    have h3' : runSingleIteration ⟨q2, p2, 1, [⟨1, s, q1⟩, ⟨2, s + 1/100, q2⟩]⟩ 3
        [(s + 2/100, "p3")] =
        ⟨q3, p3, 1, [⟨1, s, q1⟩, ⟨2, s + 1/100, q2⟩, ⟨3, s + 2/100, q3⟩]⟩ := h3
    have hc3 : checkConvergence
        (⟨q3, p3, 1, [⟨1, s, q1⟩, ⟨2, s + 1/100, q2⟩, ⟨3, s + 2/100, q3⟩]⟩ : ImproverState)
        (bestScoreOf [(s + 2/100, "p3")]) 3 6 =
        (⟨q3, p3, 2, [⟨1, s, q1⟩, ⟨2, s + 1/100, q2⟩, ⟨3, s + 2/100, q3⟩]⟩, true) := by
      show checkConvergence _ (s + 2/100) 3 6 = _
      simp only [checkConvergence]
      rw [if_pos (show 1 < ([⟨1, s, q1⟩, ⟨2, s + 1/100, q2⟩, ⟨3, s + 2/100, q3⟩] :
          List IterationRecord).length by simp)]
      rw [show ([⟨1, s, q1⟩, ⟨2, s + 1/100, q2⟩, ⟨3, s + 2/100, q3⟩] :
          List IterationRecord).getD
          (([⟨1, s, q1⟩, ⟨2, s + 1/100, q2⟩, ⟨3, s + 2/100, q3⟩] :
            List IterationRecord).length - 2) ⟨0, 0, 0⟩
          = ⟨2, s + 1/100, q2⟩ from rfl]
      dsimp only
      rw [if_pos (show s + 2/100 - (s + 1/100) < convergenceThreshold by
        rw [convergenceThreshold]; ring_nf; norm_num)]
      rw [if_neg (show ¬(maxStagnation ≤ 1 + 1) by rw [maxStagnation]; omega),
        if_neg (show ¬((95 : ℚ)/100 < s + 2/100) by linarith)]
      rfl
    obtain ⟨q4, p4, h4⟩ := runSingle_shape
      ⟨q3, p3, 2, [⟨1, s, q1⟩, ⟨2, s + 1/100, q2⟩, ⟨3, s + 2/100, q3⟩]⟩ 4 [(s + 3/100, "p4")]
    have h4' : runSingleIteration
        ⟨q3, p3, 2, [⟨1, s, q1⟩, ⟨2, s + 1/100, q2⟩, ⟨3, s + 2/100, q3⟩]⟩ 4
        [(s + 3/100, "p4")] =
        ⟨q4, p4, 2, [⟨1, s, q1⟩, ⟨2, s + 1/100, q2⟩, ⟨3, s + 2/100, q3⟩,
          ⟨4, s + 3/100, q4⟩]⟩ := h4
    have hc4 : checkConvergence
        (⟨q4, p4, 2, [⟨1, s, q1⟩, ⟨2, s + 1/100, q2⟩, ⟨3, s + 2/100, q3⟩,
          ⟨4, s + 3/100, q4⟩]⟩ : ImproverState)
        (bestScoreOf [(s + 3/100, "p4")]) 4 6 =
        (⟨q4, p4, 3, [⟨1, s, q1⟩, ⟨2, s + 1/100, q2⟩, ⟨3, s + 2/100, q3⟩,
          ⟨4, s + 3/100, q4⟩]⟩, false) := by
      show checkConvergence _ (s + 3/100) 4 6 = _
      simp only [checkConvergence]
      rw [if_pos (show 1 < ([⟨1, s, q1⟩, ⟨2, s + 1/100, q2⟩, ⟨3, s + 2/100, q3⟩,
          ⟨4, s + 3/100, q4⟩] : List IterationRecord).length by simp)]
      rw [show ([⟨1, s, q1⟩, ⟨2, s + 1/100, q2⟩, ⟨3, s + 2/100, q3⟩,
          ⟨4, s + 3/100, q4⟩] : List IterationRecord).getD
          (([⟨1, s, q1⟩, ⟨2, s + 1/100, q2⟩, ⟨3, s + 2/100, q3⟩,
            ⟨4, s + 3/100, q4⟩] : List IterationRecord).length - 2) ⟨0, 0, 0⟩
          = ⟨3, s + 2/100, q3⟩ from rfl]
      dsimp only
      rw [if_pos (show s + 3/100 - (s + 2/100) < convergenceThreshold by
        rw [convergenceThreshold]; ring_nf; norm_num)]
      rw [if_pos (show maxStagnation ≤ 2 + 1 by rw [maxStagnation])]
    rw [runCycle]
    simp only [scenarioRoundsD]
    rw [runRounds_cons_eq _ _ _ _ _ _ _ h1' hc1]
    dsimp only
    rw [if_pos rfl]
    rw [runRounds_cons_eq _ _ _ _ _ _ _ h2' hc2]
    dsimp only
    rw [if_pos rfl]
    rw [runRounds_cons_eq _ _ _ _ _ _ _ h3' hc3]
    dsimp only
    rw [if_pos rfl]
    rw [runRounds_cons_eq _ _ _ _ _ _ _ h4' hc4]
    dsimp only
    rw [if_neg Bool.false_ne_true]
    exact ⟨rfl, rfl, rfl, rfl⟩
  · intro st cb it mi hlen
    constructor
    · intro hd
      simp only [checkConvergence]
      rw [if_pos hlen, if_pos hd]
      split_ifs <;> rfl
    · intro hd
      simp only [checkConvergence]
      rw [if_pos hlen, if_neg hd]
      split_ifs <;> rfl

/-- Witness for C3 at the concrete starting score 0.5. -/
theorem stagnation_stops_witness :
    ((1 : ℚ)/2 ≤ 9/10) ∧
    (runCycle (scenarioRoundsD (1/2)) 6).iteration_results.length = 4 ∧
    (runCycle (scenarioRoundsD (1/2)) 6).stagnation_count = 3 :=
  ⟨by norm_num,
   (stagnation_stops_after_three_low_rounds (1/2) (by norm_num)).1.1,
   (stagnation_stops_after_three_low_rounds (1/2) (by norm_num)).1.2.1⟩

/-! ## Data-usage zero-reference behaviour (C4) -/

theorem guardedRatio_right_zero (a : ℕ) :
    guardedRatio a 0 = if a = 0 then 1 else 0 := by
  rw [guardedRatio, if_neg (lt_irrefl 0)]

/-- Claim C4, amended: when the reference has zero extracted data points, a
candidate that also has zero gives `data_usage_match = 1.0`; when the
candidate has data points and the reference none, the quality sub-ratio is
1.0 only if no candidate point contains a digit (else 0.0) and the context
sub-ratio is 1.0 only if no candidate point spans more than three words
(else 0.0) — in every case a guarded branch, never a division error. -/
theorem data_usage_zero_reference (aiContent publishedContent : List Char)
    (href : extract_data_points publishedContent = []) :
    (extract_data_points aiContent = [] →
      (data_usage_comparison aiContent publishedContent).overall = 1) ∧
    (data_usage_comparison aiContent publishedContent).quality_match =
      (if ((extract_data_points aiContent).filter (fun dp => dp.any Char.isDigit)).length = 0
       then 1 else 0) ∧
    (data_usage_comparison aiContent publishedContent).context_integration =
      (if ((extract_data_points aiContent).filter (fun dp => 3 < (pyWords dp).length)).length = 0
       then 1 else 0) := by
  refine ⟨?_, ?_, ?_⟩
  · intro hai
    simp only [data_usage_comparison, href, hai, List.filter_nil, List.length_nil,
      countDiffScore_self, guardedRatio_self]
    norm_num
  · simp only [data_usage_comparison, href, List.filter_nil, List.length_nil]
    rw [guardedRatio_right_zero]
  · simp only [data_usage_comparison, href, List.filter_nil, List.length_nil]
    rw [guardedRatio_right_zero]

/-- Witness for the amended C4: both sides empty. -/
theorem data_usage_zero_reference_witness :
    extract_data_points ("".data) = [] ∧
    ((extract_data_points ("".data) = [] →
        (data_usage_comparison ("".data) ("".data)).overall = 1) ∧
     (data_usage_comparison ("".data) ("".data)).quality_match =
       (if ((extract_data_points ("".data)).filter (fun dp => dp.any Char.isDigit)).length = 0
        then 1 else 0) ∧
     (data_usage_comparison ("".data) ("".data)).context_integration =
       (if ((extract_data_points ("".data)).filter (fun dp => 3 < (pyWords dp).length)).length = 0
        then 1 else 0)) :=
  ⟨rfl, data_usage_zero_reference ("".data) ("".data) rfl⟩

/-- Claim C4, counterexample: candidate `"50%"` has one (digit-bearing)
extracted data point and the reference `""` has none; the quality sub-ratio
is then 0.0, not the claimed default of 1.0. -/
theorem data_usage_quality_zero_counterexample :
    extract_data_points ("".data) = [] ∧
    extract_data_points ("50%".data) = ["50%".data] ∧
    (data_usage_comparison ("50%".data) ("".data)).quality_match = 0 ∧
    ¬ (data_usage_comparison ("50%".data) ("".data)).quality_match = 1 := by
  have hq : (data_usage_comparison ("50%".data) ("".data)).quality_match = 0 := rfl
  refine ⟨rfl, rfl, hq, ?_⟩
  rw [hq]
  norm_num

/-! ## Self-comparison (C5) and the judge-failure cap (C9) -/

theorem comp_hook (useLlmJudge : Bool) (judgeResponse : Option (List Char))
    (battleScore : ℚ) (aiContent : List Char) (publishedPost : BlogPost) (topic : List Char) :
    (comprehensive_comparison useLlmJudge judgeResponse battleScore aiContent publishedPost topic).hook_effectiveness
      = (structural_comparison aiContent publishedPost.content).hook_quality := rfl

/-- Claim C5, amended: for every text X whose blank-line paragraph split
yields at least one non-empty paragraph, scoring X against a reference whose
content is exactly X gives structural_match, style_similarity and
data_usage_match all at least 0.95 (each is in fact exactly 1). -/
theorem self_score_high_similarity (X : List Char) (publishedPost : BlogPost)
    (hcontent : publishedPost.content = X) (hpara : paragraphsOf X ≠ [])
    (useLlmJudge : Bool) (judgeResponse : Option (List Char)) (battleScore : ℚ)
    (topic : List Char) :
    95/100 ≤ (comprehensive_comparison useLlmJudge judgeResponse battleScore X publishedPost topic).structural_match ∧
    95/100 ≤ (comprehensive_comparison useLlmJudge judgeResponse battleScore X publishedPost topic).style_similarity ∧
    95/100 ≤ (comprehensive_comparison useLlmJudge judgeResponse battleScore X publishedPost topic).data_usage_match := by
  rw [comp_structural, comp_style, comp_data, hcontent]
  rw [structural_comparison_self X hpara, style_similarity_self X, data_usage_self X]
  norm_num

/-- Witness for the amended C5 at the concrete text `"Hi there"`. -/
theorem self_score_high_similarity_witness :
    (paragraphsOf ("Hi there".data) ≠ []) ∧
    95/100 ≤ (comprehensive_comparison false none (1/2) ("Hi there".data)
      ⟨"t", "u", "Hi there".data, "d", 2, 1, [], [], "q", "s"⟩ ("x".data)).structural_match ∧
    95/100 ≤ (comprehensive_comparison false none (1/2) ("Hi there".data)
      ⟨"t", "u", "Hi there".data, "d", 2, 1, [], [], "q", "s"⟩ ("x".data)).style_similarity ∧
    95/100 ≤ (comprehensive_comparison false none (1/2) ("Hi there".data)
      ⟨"t", "u", "Hi there".data, "d", 2, 1, [], [], "q", "s"⟩ ("x".data)).data_usage_match :=
  ⟨by decide,
   self_score_high_similarity ("Hi there".data)
     ⟨"t", "u", "Hi there".data, "d", 2, 1, [], [], "q", "s"⟩ rfl (by decide)
     false none (1/2) ("x".data)⟩

/-- Claim C5, counterexample: for the empty text, scoring it against an
empty reference gives structural_match = 0.4 (paragraph-length, hook and
conclusion sub-scores all degrade to 0), far below 0.95. -/
theorem self_score_empty_counterexample :
    (comprehensive_comparison false none (1/2) []
      ⟨"t", "u", [], "d", 0, 0, [], [], "q", "s"⟩ []).structural_match = 2/5 ∧
    ¬ (95/100 ≤ (comprehensive_comparison false none (1/2) []
      ⟨"t", "u", [], "d", 0, 0, [], [], "q", "s"⟩ []).structural_match) := by
  have h : (comprehensive_comparison false none (1/2) []
      ⟨"t", "u", [], "d", 0, 0, [], [], "q", "s"⟩ []).structural_match = 2/5 := by
    rw [comp_structural]
    show (structural_comparison [] ([] : List Char)).overall = 2/5
    simp only [structural_comparison]
    rw [show paragraphsOf ([] : List Char) = [] from rfl,
      show pyWords ([] : List Char) = [] from rfl]
    simp only [List.map_nil, List.length_nil, List.headD_nil, List.getLastD_nil]
    rw [countDiffScore_self, if_neg (by simp),
      show calculateTextSimilarity [] [] = 0 from rfl]
    norm_num
  refine ⟨h, ?_⟩
  rw [h]
  norm_num

/-- Claim C9: when the judge call raises (`none` response) or no `Score:`
value can be parsed, the judge score used is 0.0 — not `None`, not a neutral
fallback — and it still carries the 60% weight, so the overall similarity is
at most 0.40 whatever the four structural sub-scores are (the external
battle score being within its documented `[0,1]` range). -/
theorem judge_failure_caps_overall (judgeResponse : Option (List Char)) (battleScore : ℚ)
    (aiContent : List Char) (publishedPost : BlogPost) (topic : List Char)
    (hfail : llm_judge_evaluation judgeResponse = 0) (hb : battleScore ≤ 1) :
    llm_judge_evaluation none = 0 ∧
    (∀ t, findScoreNum t = none → llm_judge_evaluation (some t) = 0) ∧
    (comprehensive_comparison true judgeResponse battleScore aiContent publishedPost topic).llm_judge_score
      = some 0 ∧
    (comprehensive_comparison true judgeResponse battleScore aiContent publishedPost topic).overall_similarity
      ≤ 40/100 := by
  refine ⟨rfl, ?_, ?_, ?_⟩
  · intro t ht
    rw [llm_judge_evaluation, ht]
    norm_num
  · show some (llm_judge_evaluation judgeResponse) = some 0
    rw [hfail]
  · rw [comp_overall_true, hfail]
    have h1 := structural_overall_le_one aiContent publishedPost.content
    have h2 := style_overall_le_one aiContent publishedPost.content
    have h3 := content_overall_le_one battleScore aiContent publishedPost.content topic hb
    have h4 := data_overall_le_one aiContent publishedPost.content
    linarith

/-- Witness for C9: a concrete response with no parsable score. -/
theorem judge_failure_caps_overall_witness :
    llm_judge_evaluation (some ("no score here".data)) = 0 ∧
    (comprehensive_comparison true (some ("no score here".data)) (1/2) ("a".data)
      ⟨"t", "u", "b".data, "d", 1, 1, [], [], "q", "s"⟩ ("x".data)).overall_similarity
      ≤ 40/100 := by
  have hf : llm_judge_evaluation (some ("no score here".data)) = 0 := by
    rw [llm_judge_evaluation, show findScoreNum ("no score here".data) = none from rfl]
    norm_num
  exact ⟨hf, (judge_failure_caps_overall (some ("no score here".data)) (1/2) ("a".data)
    ⟨"t", "u", "b".data, "d", 1, 1, [], [], "q", "s"⟩ ("x".data) hf (by norm_num)).2.2.2⟩

end EvoBlog
